import Mathlib

/-! IPv6ToBle driver: NDIS pool helpers and control-device lifecycle.

A shallow embedding of `Helpers_NDIS.c` and `Device.c`.

* Pointers and handles are natural numbers, `0` being `NULL`.
* Kernel memory is a map from addresses to `NDIS_POOL_DATA` contents. Memory
  that `ExAllocatePoolWithTag` hands out is not initialised, so the contents
  found at the returned address are whatever the machine held there.
* Every call that leaves the two source files (allocators, releases, WDF and
  I/O manager calls) is appended to a chronological trace. The values such a
  call returns are read from an environment `Env`.
* A C parameter is a local copy: assigning to it inside the callee changes
  nothing the caller holds.
-/

namespace IPv6ToBle

/-! ## Status codes -/

/-- An `NTSTATUS` is a signed 32-bit value. -/
abbrev NTSTATUS := Int

def STATUS_SUCCESS : NTSTATUS := 0

/-- The value `0xC0000008` read as a signed 32-bit integer. -/
def STATUS_INVALID_HANDLE : NTSTATUS := 0xC0000008 - 0x100000000

/-- The value `0xC000009A` read as a signed 32-bit integer. -/
def STATUS_INSUFFICIENT_RESOURCES : NTSTATUS := 0xC000009A - 0x100000000

/-- The macro `NT_SUCCESS(Status)`, that is `((NTSTATUS)(Status)) >= 0`. -/
def NT_SUCCESS (status : NTSTATUS) : Bool := decide (0 ≤ status)

/-! ## Data model -/

/-- The pool aggregate. The source reads and writes the three handles; `rest`
stands for any further words the (absent) declaration may hold, which only
`RtlZeroMemory` touches. -/
structure NDIS_POOL_DATA where
  ndisHandle : Nat
  nblPoolHandle : Nat
  nbPoolHandle : Nat
  rest : List Nat
  deriving DecidableEq, Repr

/-- The three spin locks of the device context. -/
inductive Lock where
  | listenRequestQueueLock
  | whiteListModifiedLock
  | meshListModifiedLock
  deriving DecidableEq, Repr

/-- The two runtime lists. -/
inductive RuntimeList where
  | whiteList
  | meshList
  deriving DecidableEq, Repr

/-- The work-item routines handed to `IoQueueWorkItemEx`. -/
inductive Routine where
  | IPv6ToBleRegistryFlushWhiteListWorkItemEx
  | IPv6ToBleRegistryFlushMeshListWorkItemEx
  deriving DecidableEq, Repr

/-- The parameter block of `NdisAllocateNetBufferListPool`, as filled in by
`IPv6ToBleNDISPoolDataPopulate`. -/
structure NET_BUFFER_LIST_POOL_PARAMETERS where
  fAllocateNetBuffer : Bool
  DataSize : Nat
  PoolTag : Nat
  deriving DecidableEq, Repr

/-- The parameter block of `NdisAllocateNetBufferPool`. -/
structure NET_BUFFER_POOL_PARAMETERS where
  PoolTag : Nat
  DataSize : Nat
  deriving DecidableEq, Repr

/-- Calls that leave the two source files, with their arguments and, for
allocators, the value returned. -/
inductive Event where
  | ExAllocatePoolWithTag (tag result : Nat)
  | ExFreePoolWithTag (p tag : Nat)
  | NdisAllocateGenericObject (tag result : Nat)
  | NdisAllocateNetBufferListPool (ndisHandle : Nat)
      (params : NET_BUFFER_LIST_POOL_PARAMETERS) (result : Nat)
  | NdisAllocateNetBufferPool (ndisHandle : Nat)
      (params : NET_BUFFER_POOL_PARAMETERS) (result : Nat)
  | NdisFreeNetBufferPool (h : Nat)
  | NdisFreeNetBufferListPool (h : Nat)
  | NdisFreeGenericObject (h : Nat)
  | WdfControlDeviceInitAllocate (result : Nat)
  | WdfDeviceInitSetDeviceType
  | WdfDeviceInitSetCharacteristics
  | WdfDeviceInitAssignName (status : NTSTATUS)
  | WdfDeviceInitFree
  | WdfDeviceCreate (status : NTSTATUS)
  | WdfControlFinishInitializing
  | WdfDeviceCreateSymbolicLink (status : NTSTATUS)
  | WdfSpinLockCreate (lock : Lock) (status : NTSTATUS)
  | InitializeListHead (list : RuntimeList)
  | IPv6ToBleQueuesInitialize (status : NTSTATUS)
  | WdfTimerCreate (status : NTSTATUS)
  | WdfTimerStart
  | IPv6ToBleRuntimeListDestroyWhiteList
  | IPv6ToBleRuntimeListDestroyMeshList
  | WdfSpinLockAcquire (lock : Lock)
  | WdfSpinLockRelease (lock : Lock)
  | IoAllocateWorkItem (result : Nat)
  | IoQueueWorkItemEx (workItem : Nat) (routine : Routine)
  deriving DecidableEq, Repr

/-- The fields of the device context that the two files read or write. -/
structure IPV6_TO_BLE_DEVICE_CONTEXT where
  calloutsRegistered : Bool
  whiteListModified : Bool
  meshListModified : Bool
  ndisPoolData : Nat
  deriving DecidableEq, Repr

/-- What the outside world answers. `BORDER_ROUTER` is the build switch and
`IPV6_TO_BLE_NDIS_TAG` the tag constant, both declared outside the two files.
`IoAllocateWorkItem n` is the answer to the call made after `n` earlier ones. -/
structure Env where
  BORDER_ROUTER : Bool
  IPV6_TO_BLE_NDIS_TAG : Nat
  ExAllocatePoolWithTag : Nat → Nat
  NdisAllocateGenericObject : Nat → Nat
  NdisAllocateNetBufferListPool : Nat → NET_BUFFER_LIST_POOL_PARAMETERS → Nat
  NdisAllocateNetBufferPool : Nat → NET_BUFFER_POOL_PARAMETERS → Nat
  WdfControlDeviceInitAllocate : Nat
  WdfDeviceInitAssignName : NTSTATUS
  WdfDeviceCreate : NTSTATUS
  WdfDeviceCreateSymbolicLink : NTSTATUS
  WdfSpinLockCreate : Lock → NTSTATUS
  IPv6ToBleQueuesInitialize : NTSTATUS
  WdfTimerCreate : NTSTATUS
  IoAllocateWorkItem : Nat → Nat

/-- The machine state: pool memory, the device context, the number of
`IoAllocateWorkItem` calls made so far, and the trace of outside calls. -/
structure Machine where
  mem : Nat → NDIS_POOL_DATA
  ctx : IPV6_TO_BLE_DEVICE_CONTEXT
  workItemCalls : Nat
  trace : List Event

/-- Record an outside call. -/
def emit (e : Event) (s : Machine) : Machine :=
  { s with trace := s.trace ++ [e] }

/-- Write the structure at address `p`. -/
def store (p : Nat) (d : NDIS_POOL_DATA) (s : Machine) : Machine :=
  { s with mem := fun q => if q = p then d else s.mem q }

/-- The call `RtlZeroMemory(ndisPoolData, sizeof(NDIS_POOL_DATA))`. -/
def RtlZeroMemory (p : Nat) (s : Machine) : Machine :=
  store p ⟨0, 0, 0, List.replicate (s.mem p).rest.length 0⟩ s

/-- The events a run added to the trace. -/
def eventsSince (s s' : Machine) : List Event :=
  s'.trace.drop s.trace.length

/-! ## Helpers_NDIS.c -/

/-- `IPv6ToBleNDISPoolDataPurge`: under a non-null `ndisHandle`, free the
buffer pool, the buffer-list pool and the generic object; then zero the
structure. -/
def IPv6ToBleNDISPoolDataPurge (ndisPoolData : Nat) (s : Machine) : Machine :=
  let s :=
    if (s.mem ndisPoolData).ndisHandle ≠ 0 then
      let s :=
        if (s.mem ndisPoolData).nbPoolHandle ≠ 0 then
          let s := emit (.NdisFreeNetBufferPool (s.mem ndisPoolData).nbPoolHandle) s
          store ndisPoolData { s.mem ndisPoolData with nbPoolHandle := 0 } s
        else s
      let s :=
        if (s.mem ndisPoolData).nblPoolHandle ≠ 0 then
          let s := emit (.NdisFreeNetBufferListPool (s.mem ndisPoolData).nblPoolHandle) s
          store ndisPoolData { s.mem ndisPoolData with nblPoolHandle := 0 } s
        else s
      let s := emit (.NdisFreeGenericObject (s.mem ndisPoolData).ndisHandle) s
      store ndisPoolData { s.mem ndisPoolData with ndisHandle := 0 } s
    else s
  RtlZeroMemory ndisPoolData s

/-- The `Exit:` label of `IPv6ToBleNDISPoolDataPopulate`. -/
def IPv6ToBleNDISPoolDataPopulate.Exit (status : NTSTATUS) (ndisPoolData : Nat)
    (s : Machine) : NTSTATUS × Machine :=
  if !NT_SUCCESS status then
    (status, IPv6ToBleNDISPoolDataPurge ndisPoolData s)
  else
    (status, s)

/-- `IPv6ToBleNDISPoolDataPopulate`: allocate the generic object, the
buffer-list pool and the buffer pool, leaving through `Exit` at the first null
handle. -/
def IPv6ToBleNDISPoolDataPopulate (env : Env) (ndisPoolData memoryTag : Nat)
    (s : Machine) : NTSTATUS × Machine :=
  let status := STATUS_SUCCESS
  -- Step 1
  let h := env.NdisAllocateGenericObject memoryTag
  let s := emit (.NdisAllocateGenericObject memoryTag h) s
  let s := store ndisPoolData { s.mem ndisPoolData with ndisHandle := h } s
  if (s.mem ndisPoolData).ndisHandle = 0 then
    IPv6ToBleNDISPoolDataPopulate.Exit STATUS_INVALID_HANDLE ndisPoolData s
  else
    -- Step 2
    let nblPoolParameters : NET_BUFFER_LIST_POOL_PARAMETERS :=
      { fAllocateNetBuffer := true, DataSize := 0, PoolTag := memoryTag }
    let h := env.NdisAllocateNetBufferListPool (s.mem ndisPoolData).ndisHandle
      nblPoolParameters
    let s := emit (.NdisAllocateNetBufferListPool (s.mem ndisPoolData).ndisHandle
      nblPoolParameters h) s
    let s := store ndisPoolData { s.mem ndisPoolData with nblPoolHandle := h } s
    if (s.mem ndisPoolData).nblPoolHandle = 0 then
      IPv6ToBleNDISPoolDataPopulate.Exit STATUS_INVALID_HANDLE ndisPoolData s
    else
      -- Step 3
      let nbPoolParameters : NET_BUFFER_POOL_PARAMETERS :=
        { PoolTag := memoryTag, DataSize := 0 }
      let h := env.NdisAllocateNetBufferPool (s.mem ndisPoolData).ndisHandle
        nbPoolParameters
      let s := emit (.NdisAllocateNetBufferPool (s.mem ndisPoolData).ndisHandle
        nbPoolParameters h) s
      let s := store ndisPoolData { s.mem ndisPoolData with nbPoolHandle := h } s
      if (s.mem ndisPoolData).nbPoolHandle = 0 then
        IPv6ToBleNDISPoolDataPopulate.Exit STATUS_INVALID_HANDLE ndisPoolData s
      else
        IPv6ToBleNDISPoolDataPopulate.Exit status ndisPoolData s

/-- `IPv6ToBleNDISPoolDataDestroy`: under a non-null pointer, purge and free
the aggregate with `IPV6_TO_BLE_NDIS_TAG`. The closing `ndisPoolData = 0`
assigns the parameter, a local copy, and so has no counterpart here. -/
def IPv6ToBleNDISPoolDataDestroy (env : Env) (ndisPoolData : Nat) (s : Machine) :
    Machine :=
  if ndisPoolData ≠ 0 then
    let s := IPv6ToBleNDISPoolDataPurge ndisPoolData s
    emit (.ExFreePoolWithTag ndisPoolData env.IPV6_TO_BLE_NDIS_TAG) s
  else s

/-- `IPv6ToBleNDISPoolDataCreate`. The parameter `ndisPoolData` is overwritten
by the allocation before it is ever read; the pointer the caller passed is a
copy and keeps its value. -/
def IPv6ToBleNDISPoolDataCreate (env : Env) (_ndisPoolData memoryTag : Nat)
    (s : Machine) : NTSTATUS × Machine :=
  -- Step 1
  let ndisPoolData := env.ExAllocatePoolWithTag memoryTag
  let s := emit (.ExAllocatePoolWithTag memoryTag ndisPoolData) s
  if ndisPoolData = 0 then
    (STATUS_INSUFFICIENT_RESOURCES, s)
  else
    -- Step 2
    let r := IPv6ToBleNDISPoolDataPopulate env ndisPoolData memoryTag s
    let status := r.1
    let s := r.2
    let s :=
      if !NT_SUCCESS status && ndisPoolData ≠ 0 then
        IPv6ToBleNDISPoolDataDestroy env ndisPoolData s
      else s
    (status, s)

/-! ## Device.c -/

/-- `IPv6ToBleControlDeviceCreate`, from the pool creation that closes step 4
to the end of the routine. Every `goto Exit` is a return of the current
status. -/
def IPv6ToBleControlDeviceCreate.poolAndLater (env : Env) (s : Machine) :
    NTSTATUS × Machine :=
  let r := IPv6ToBleNDISPoolDataCreate env s.ctx.ndisPoolData
    env.IPV6_TO_BLE_NDIS_TAG s
  let status := r.1
  let s := r.2
  if !NT_SUCCESS status && s.ctx.ndisPoolData ≠ 0 then
    (status, IPv6ToBleNDISPoolDataDestroy env s.ctx.ndisPoolData s)
  else
    -- Step 5
    let status := env.IPv6ToBleQueuesInitialize
    let s := emit (.IPv6ToBleQueuesInitialize status) s
    if !NT_SUCCESS status then
      (status, s)
    else
      -- Step 6
      if env.BORDER_ROUTER then
        let status := env.WdfTimerCreate
        let s := emit (.WdfTimerCreate status) s
        if !NT_SUCCESS status then
          (status, s)
        else
          (status, emit .WdfTimerStart s)
      else
        (status, s)

/-- `IPv6ToBleControlDeviceCreate`, from the first `#ifdef BORDER_ROUTER` block
of step 4 (the two list locks, the list heads and the flags) onwards. -/
def IPv6ToBleControlDeviceCreate.borderRouterLocks (env : Env) (s : Machine) :
    NTSTATUS × Machine :=
  if env.BORDER_ROUTER then
    let status := env.WdfSpinLockCreate .whiteListModifiedLock
    let s := emit (.WdfSpinLockCreate .whiteListModifiedLock status) s
    if !NT_SUCCESS status then
      (status, s)
    else
      let status := env.WdfSpinLockCreate .meshListModifiedLock
      let s := emit (.WdfSpinLockCreate .meshListModifiedLock status) s
      if !NT_SUCCESS status then
        (status, s)
      else
        let s := { s with ctx := { s.ctx with calloutsRegistered := false } }
        let s := emit (.InitializeListHead .whiteList) s
        let s := emit (.InitializeListHead .meshList) s
        let s := { s with ctx := { s.ctx with whiteListModified := false } }
        let s := { s with ctx := { s.ctx with meshListModified := false } }
        IPv6ToBleControlDeviceCreate.poolAndLater env s
  else
    IPv6ToBleControlDeviceCreate.poolAndLater env s

/-- `IPv6ToBleControlDeviceCreate`. Every `goto Exit` is a return of the
current status; the `BORDER_ROUTER` blocks are present when the build switch
is on. -/
def IPv6ToBleControlDeviceCreate (env : Env) (s : Machine) : NTSTATUS × Machine :=
  -- Step 1
  let deviceInit := env.WdfControlDeviceInitAllocate
  let s := emit (.WdfControlDeviceInitAllocate deviceInit) s
  if deviceInit = 0 then
    (STATUS_INSUFFICIENT_RESOURCES, s)
  else
    let s := emit .WdfDeviceInitSetDeviceType s
    let s := emit .WdfDeviceInitSetCharacteristics s
    let status := env.WdfDeviceInitAssignName
    let s := emit (.WdfDeviceInitAssignName status) s
    if !NT_SUCCESS status then
      (status, emit .WdfDeviceInitFree s)
    else
      -- Step 2
      let status := env.WdfDeviceCreate
      let s := emit (.WdfDeviceCreate status) s
      if !NT_SUCCESS status then
        (status, emit .WdfDeviceInitFree s)
      else
        let s := emit .WdfControlFinishInitializing s
        -- Step 3
        let status := env.WdfDeviceCreateSymbolicLink
        let s := emit (.WdfDeviceCreateSymbolicLink status) s
        if !NT_SUCCESS status then
          (status, s)
        else
          -- Step 4
          let status := env.WdfSpinLockCreate .listenRequestQueueLock
          let s := emit (.WdfSpinLockCreate .listenRequestQueueLock status) s
          if !NT_SUCCESS status then
            (status, s)
          else
            IPv6ToBleControlDeviceCreate.borderRouterLocks env s

/-- `IPv6ToBleEvtDeviceCleanup`. -/
def IPv6ToBleEvtDeviceCleanup (env : Env) (s : Machine) : Machine :=
  let s :=
    if env.BORDER_ROUTER then
      let s := emit .IPv6ToBleRuntimeListDestroyWhiteList s
      emit .IPv6ToBleRuntimeListDestroyMeshList s
    else s
  IPv6ToBleNDISPoolDataDestroy env s.ctx.ndisPoolData s

/-- `IPv6ToBleDeviceTimerCheckAndFlushLists`. -/
def IPv6ToBleDeviceTimerCheckAndFlushLists (env : Env) (s : Machine) : Machine :=
  -- Step 1
  let s := emit (.WdfSpinLockAcquire .whiteListModifiedLock) s
  let s :=
    if s.ctx.whiteListModified then
      let workItem := env.IoAllocateWorkItem s.workItemCalls
      let s := { emit (.IoAllocateWorkItem workItem) s with
        workItemCalls := s.workItemCalls + 1 }
      if workItem ≠ 0 then
        emit (.IoQueueWorkItemEx workItem .IPv6ToBleRegistryFlushWhiteListWorkItemEx) s
      else s
    else s
  let s := emit (.WdfSpinLockRelease .whiteListModifiedLock) s
  -- Step 2
  let s := emit (.WdfSpinLockAcquire .meshListModifiedLock) s
  let s :=
    if s.ctx.meshListModified then
      let workItem := env.IoAllocateWorkItem s.workItemCalls
      let s := { emit (.IoAllocateWorkItem workItem) s with
        workItemCalls := s.workItemCalls + 1 }
      if workItem ≠ 0 then
        emit (.IoQueueWorkItemEx workItem .IPv6ToBleRegistryFlushMeshListWorkItemEx) s
      else s
    else s
  emit (.WdfSpinLockRelease .meshListModifiedLock) s

/-! ## Reading a trace -/

/-- How many times the buffer pool handle `h` was released. -/
def nbPoolReleases (h : Nat) (t : List Event) : Nat :=
  t.count (.NdisFreeNetBufferPool h)

/-- How many times the generation handle `h` was released. -/
def ndisHandleReleases (h : Nat) (t : List Event) : Nat :=
  t.count (.NdisFreeGenericObject h)

/-- How many times the aggregate at `p` was freed, under any tag. -/
def aggregateFrees (p : Nat) (t : List Event) : Nat :=
  t.countP fun e =>
    match e with
    | .ExFreePoolWithTag q _ => decide (q = p)
    | _ => false

/-- How many work items were queued for `routine`. -/
def queued (routine : Routine) (t : List Event) : Nat :=
  t.countP fun e =>
    match e with
    | .IoQueueWorkItemEx _ r => decide (r = routine)
    | _ => false

/-- Is the event one of the start steps that follow pool creation (queue
initialization, timer creation, timer start)? -/
def Event.isLaterStartStep : Event → Bool
  | .IPv6ToBleQueuesInitialize _ => true
  | .WdfTimerCreate _ => true
  | .WdfTimerStart => true
  | _ => false

/-- The releases `IPv6ToBleNDISPoolDataPurge` issues on a structure with the
given contents. -/
def purgeEvents (d : NDIS_POOL_DATA) : List Event :=
  if d.ndisHandle = 0 then []
  else
    (if d.nbPoolHandle = 0 then [] else [Event.NdisFreeNetBufferPool d.nbPoolHandle])
      ++ (if d.nblPoolHandle = 0 then []
          else [Event.NdisFreeNetBufferListPool d.nblPoolHandle])
      ++ [Event.NdisFreeGenericObject d.ndisHandle]

/-- The answer of `NdisAllocateGenericObject` to the call populate makes. -/
def genAnswer (env : Env) (tag : Nat) : Nat :=
  env.NdisAllocateGenericObject tag

/-- The answer of `NdisAllocateNetBufferListPool` to the call populate makes
once the generation handle is in place. -/
def nblAnswer (env : Env) (tag : Nat) : Nat :=
  env.NdisAllocateNetBufferListPool (env.NdisAllocateGenericObject tag)
    { fAllocateNetBuffer := true, DataSize := 0, PoolTag := tag }

/-- The answer of `NdisAllocateNetBufferPool` to the call populate makes once
the generation handle is in place. -/
def nbAnswer (env : Env) (tag : Nat) : Nat :=
  env.NdisAllocateNetBufferPool (env.NdisAllocateGenericObject tag)
    { PoolTag := tag, DataSize := 0 }

/-- Is the event a buffer-list pool allocation attempt? -/
def Event.isNblPoolAttempt : Event → Bool
  | .NdisAllocateNetBufferListPool _ _ _ => true
  | _ => false

/-- Is the event a buffer pool allocation attempt? -/
def Event.isNbPoolAttempt : Event → Bool
  | .NdisAllocateNetBufferPool _ _ _ => true
  | _ => false

/-- A sequence of `n` periodic-check runs, one after the other, with nothing
else happening in between (no flush work item completes, no list changes). -/
def timerRuns (env : Env) : Nat → Machine → Machine
  | 0, s => s
  | n + 1, s => timerRuns env n (IPv6ToBleDeviceTimerCheckAndFlushLists env s)

/-- The effect of one outside call on the list of spin locks held. -/
def lockStep (held : List Lock) : Event → List Lock
  | .WdfSpinLockAcquire l => l :: held
  | .WdfSpinLockRelease l => held.erase l
  | _ => held

/-- The spin locks held after the events of `t`, none being held before. -/
def heldAfter (t : List Event) : List Lock :=
  t.foldl lockStep []

/-- Is the lock one of the two list locks? -/
def Lock.isListLock : Lock → Bool
  | .whiteListModifiedLock => true
  | .meshListModifiedLock => true
  | .listenRequestQueueLock => false

/-- At every point of `t` (after each of its prefixes) at most one of the two
list locks is held. -/
def atMostOneListLockHeld (t : List Event) : Bool :=
  t.inits.all fun pre => decide (((heldAfter pre).filter Lock.isListLock).length ≤ 1)

/-- Is the event a release (of a sub-pool handle or of aggregate memory)? -/
def Event.isRelease : Event → Bool
  | .NdisFreeNetBufferPool _ => true
  | .NdisFreeNetBufferListPool _ => true
  | .NdisFreeGenericObject _ => true
  | .ExFreePoolWithTag _ _ => true
  | _ => false

/-- The steps of device start, other than pool creation, that come after the
device context is fetched and whose failure is checked. -/
inductive StartStep where
  | listenRequestQueueLock
  | whiteListModifiedLock
  | meshListModifiedLock
  | queueInitialization
  | timerCreation
  deriving DecidableEq, Repr

/-- Steps 1 to 3 of device start all succeed. -/
def deviceCreated (env : Env) : Bool :=
  decide (env.WdfControlDeviceInitAllocate ≠ 0)
    && NT_SUCCESS env.WdfDeviceInitAssignName
    && NT_SUCCESS env.WdfDeviceCreate
    && NT_SUCCESS env.WdfDeviceCreateSymbolicLink

/-- Every spin lock the build creates is created. -/
def locksCreated (env : Env) : Bool :=
  NT_SUCCESS (env.WdfSpinLockCreate .listenRequestQueueLock)
    && (!env.BORDER_ROUTER
        || (NT_SUCCESS (env.WdfSpinLockCreate .whiteListModifiedLock)
            && NT_SUCCESS (env.WdfSpinLockCreate .meshListModifiedLock)))

/-- The aggregate allocation and the three handle allocations that device
start asks for (with `IPV6_TO_BLE_NDIS_TAG`) all answer non-null. -/
def poolCreated (env : Env) : Bool :=
  decide (env.ExAllocatePoolWithTag env.IPV6_TO_BLE_NDIS_TAG ≠ 0)
    && decide (genAnswer env env.IPV6_TO_BLE_NDIS_TAG ≠ 0)
    && decide (nblAnswer env env.IPV6_TO_BLE_NDIS_TAG ≠ 0)
    && decide (nbAnswer env env.IPV6_TO_BLE_NDIS_TAG ≠ 0)

/-- In this environment device start reaches `step` with every earlier step
having succeeded, and `step` fails. -/
def failsAt (env : Env) : StartStep → Bool
  | .listenRequestQueueLock =>
      deviceCreated env && !NT_SUCCESS (env.WdfSpinLockCreate .listenRequestQueueLock)
  | .whiteListModifiedLock =>
      deviceCreated env && NT_SUCCESS (env.WdfSpinLockCreate .listenRequestQueueLock)
        && env.BORDER_ROUTER
        && !NT_SUCCESS (env.WdfSpinLockCreate .whiteListModifiedLock)
  | .meshListModifiedLock =>
      deviceCreated env && NT_SUCCESS (env.WdfSpinLockCreate .listenRequestQueueLock)
        && env.BORDER_ROUTER
        && NT_SUCCESS (env.WdfSpinLockCreate .whiteListModifiedLock)
        && !NT_SUCCESS (env.WdfSpinLockCreate .meshListModifiedLock)
  | .queueInitialization =>
      deviceCreated env && locksCreated env && poolCreated env
        && !NT_SUCCESS env.IPv6ToBleQueuesInitialize
  | .timerCreation =>
      deviceCreated env && locksCreated env && poolCreated env
        && NT_SUCCESS env.IPv6ToBleQueuesInitialize
        && env.BORDER_ROUTER
        && !NT_SUCCESS env.WdfTimerCreate

/-- The status the outside call of `step` answers. -/
def stepStatus (env : Env) : StartStep → NTSTATUS
  | .listenRequestQueueLock => env.WdfSpinLockCreate .listenRequestQueueLock
  | .whiteListModifiedLock => env.WdfSpinLockCreate .whiteListModifiedLock
  | .meshListModifiedLock => env.WdfSpinLockCreate .meshListModifiedLock
  | .queueInitialization => env.IPv6ToBleQueuesInitialize
  | .timerCreation => env.WdfTimerCreate

/-- The outside call of `step`, as it appears in the trace. -/
def stepEvent (env : Env) : StartStep → Event
  | .listenRequestQueueLock =>
      .WdfSpinLockCreate .listenRequestQueueLock
        (env.WdfSpinLockCreate .listenRequestQueueLock)
  | .whiteListModifiedLock =>
      .WdfSpinLockCreate .whiteListModifiedLock
        (env.WdfSpinLockCreate .whiteListModifiedLock)
  | .meshListModifiedLock =>
      .WdfSpinLockCreate .meshListModifiedLock
        (env.WdfSpinLockCreate .meshListModifiedLock)
  | .queueInitialization => .IPv6ToBleQueuesInitialize env.IPv6ToBleQueuesInitialize
  | .timerCreation => .WdfTimerCreate env.WdfTimerCreate

/-- The run from `s` to `r` returns `status`, its last outside call is `e`, and
it releases nothing before `e`. -/
def StopsWith (s : Machine) (r : NTSTATUS × Machine) (status : NTSTATUS)
    (e : Event) : Prop :=
  r.1 = status ∧ ∃ l, r.2.trace = s.trace ++ (l ++ [e]) ∧ l.any Event.isRelease = false

/-! ## Concrete inputs -/

/-- Memory holding zeros everywhere. -/
def zeroMem : Nat → NDIS_POOL_DATA := fun _ => ⟨0, 0, 0, []⟩

/-- A freshly started machine: zeroed memory and device context, empty trace. -/
def bootMachine : Machine :=
  { mem := zeroMem
    ctx := { calloutsRegistered := false, whiteListModified := false,
             meshListModified := false, ndisPoolData := 0 }
    workItemCalls := 0
    trace := [] }

/-- An environment in which every call succeeds: the aggregate lands at address
`100`, the handles are `11`, `12`, `13`, work items are `n + 1`. -/
def okEnv : Env :=
  { BORDER_ROUTER := true
    IPV6_TO_BLE_NDIS_TAG := 7
    ExAllocatePoolWithTag := fun _ => 100
    NdisAllocateGenericObject := fun _ => 11
    NdisAllocateNetBufferListPool := fun _ _ => 12
    NdisAllocateNetBufferPool := fun _ _ => 13
    WdfControlDeviceInitAllocate := 1
    WdfDeviceInitAssignName := STATUS_SUCCESS
    WdfDeviceCreate := STATUS_SUCCESS
    WdfDeviceCreateSymbolicLink := STATUS_SUCCESS
    WdfSpinLockCreate := fun _ => STATUS_SUCCESS
    IPv6ToBleQueuesInitialize := STATUS_SUCCESS
    WdfTimerCreate := STATUS_SUCCESS
    IoAllocateWorkItem := fun n => n + 1 }

/-- As `okEnv`, but the buffer-list pool allocator answers null. -/
def nblFailEnv : Env :=
  { okEnv with NdisAllocateNetBufferListPool := fun _ _ => 0 }

/-- As `okEnv`, but the aggregate allocation answers null. -/
def noAggregateEnv : Env :=
  { okEnv with ExAllocatePoolWithTag := fun _ => 0 }

/-- A booted machine whose pool memory at address `100` still holds a stale
word `55` where the buffer pool handle will live. -/
def staleMachine : Machine :=
  { bootMachine with
    mem := fun q => if q = 100 then ⟨0, 0, 55, []⟩ else ⟨0, 0, 0, []⟩ }

/-- A machine whose device context points at a fully populated pool at address
`100`. -/
def liveMachine : Machine :=
  { bootMachine with
    mem := fun q => if q = 100 then ⟨11, 12, 13, []⟩ else ⟨0, 0, 0, []⟩
    ctx := { bootMachine.ctx with ndisPoolData := 100 } }

/-- A structure at address `100` with a null generation handle and a non-null
buffer pool handle. -/
def orphanPoolMachine : Machine :=
  { bootMachine with
    mem := fun q => if q = 100 then ⟨0, 0, 13, []⟩ else ⟨0, 0, 0, []⟩ }

/-- A machine whose white list is modified and whose mesh list is clean. -/
def whiteDirtyMachine : Machine :=
  { bootMachine with ctx := { bootMachine.ctx with whiteListModified := true } }

/-- As `okEnv`, but queue initialization fails. -/
def queueFailEnv : Env :=
  { okEnv with IPv6ToBleQueuesInitialize := STATUS_INSUFFICIENT_RESOURCES }

/-- As `okEnv`, but timer creation fails. -/
def timerFailEnv : Env :=
  { okEnv with WdfTimerCreate := STATUS_INSUFFICIENT_RESOURCES }

/-! ## Basic facts about the machine -/

@[simp] theorem emit_trace (e : Event) (s : Machine) :
    (emit e s).trace = s.trace ++ [e] := rfl

@[simp] theorem emit_mem (e : Event) (s : Machine) : (emit e s).mem = s.mem := rfl

@[simp] theorem emit_ctx (e : Event) (s : Machine) : (emit e s).ctx = s.ctx := rfl

@[simp] theorem emit_workItemCalls (e : Event) (s : Machine) :
    (emit e s).workItemCalls = s.workItemCalls := rfl

@[simp] theorem store_trace (p : Nat) (d : NDIS_POOL_DATA) (s : Machine) :
    (store p d s).trace = s.trace := rfl

@[simp] theorem store_ctx (p : Nat) (d : NDIS_POOL_DATA) (s : Machine) :
    (store p d s).ctx = s.ctx := rfl

@[simp] theorem store_workItemCalls (p : Nat) (d : NDIS_POOL_DATA) (s : Machine) :
    (store p d s).workItemCalls = s.workItemCalls := rfl

@[simp] theorem store_mem_same (p : Nat) (d : NDIS_POOL_DATA) (s : Machine) :
    (store p d s).mem p = d := by
  simp [store]

theorem store_mem_other (p q : Nat) (d : NDIS_POOL_DATA) (s : Machine) (h : q ≠ p) :
    (store p d s).mem q = s.mem q := by
  simp [store, h]

theorem eventsSince_of_trace (s s' : Machine) (l : List Event)
    (h : s'.trace = s.trace ++ l) : eventsSince s s' = l := by
  simp [eventsSince, h]

theorem purge_trace (p : Nat) (s : Machine) :
    (IPv6ToBleNDISPoolDataPurge p s).trace = s.trace ++ purgeEvents (s.mem p) := by
  unfold IPv6ToBleNDISPoolDataPurge RtlZeroMemory purgeEvents
  by_cases hg : (s.mem p).ndisHandle = 0 <;>
  by_cases hb : (s.mem p).nbPoolHandle = 0 <;>
  by_cases hl : (s.mem p).nblPoolHandle = 0 <;>
  simp [hg, hb, hl]

theorem purge_mem_same (p : Nat) (s : Machine) :
    (IPv6ToBleNDISPoolDataPurge p s).mem p
      = ⟨0, 0, 0, List.replicate (s.mem p).rest.length 0⟩ := by
  unfold IPv6ToBleNDISPoolDataPurge RtlZeroMemory
  by_cases hg : (s.mem p).ndisHandle = 0 <;>
  by_cases hb : (s.mem p).nbPoolHandle = 0 <;>
  by_cases hl : (s.mem p).nblPoolHandle = 0 <;>
  simp [hg, hb, hl]

theorem purge_mem_other (p q : Nat) (s : Machine) (h : q ≠ p) :
    (IPv6ToBleNDISPoolDataPurge p s).mem q = s.mem q := by
  unfold IPv6ToBleNDISPoolDataPurge RtlZeroMemory
  by_cases hg : (s.mem p).ndisHandle = 0 <;>
  by_cases hb : (s.mem p).nbPoolHandle = 0 <;>
  by_cases hl : (s.mem p).nblPoolHandle = 0 <;>
  simp [hg, hb, hl, store_mem_other, h]

@[simp] theorem purge_ctx (p : Nat) (s : Machine) :
    (IPv6ToBleNDISPoolDataPurge p s).ctx = s.ctx := by
  unfold IPv6ToBleNDISPoolDataPurge RtlZeroMemory
  by_cases hg : (s.mem p).ndisHandle = 0 <;>
  by_cases hb : (s.mem p).nbPoolHandle = 0 <;>
  by_cases hl : (s.mem p).nblPoolHandle = 0 <;>
  simp [hg, hb, hl]

/-! ## What `IPv6ToBleNDISPoolDataPopulate` does, case by case -/

theorem populate_gen_null (env : Env) (p tag : Nat) (s : Machine)
    (hg : env.NdisAllocateGenericObject tag = 0) :
    (IPv6ToBleNDISPoolDataPopulate env p tag s).1 = STATUS_INVALID_HANDLE ∧
    (IPv6ToBleNDISPoolDataPopulate env p tag s).2.trace
      = s.trace ++ [Event.NdisAllocateGenericObject tag 0] ∧
    (IPv6ToBleNDISPoolDataPopulate env p tag s).2.mem p
      = ⟨0, 0, 0, List.replicate (s.mem p).rest.length 0⟩ := by
  simp [IPv6ToBleNDISPoolDataPopulate, IPv6ToBleNDISPoolDataPopulate.Exit, hg,
    NT_SUCCESS, STATUS_INVALID_HANDLE, purge_trace, purge_mem_same, purgeEvents]

theorem populate_nbl_null (env : Env) (p tag : Nat) (s : Machine)
    (hg : env.NdisAllocateGenericObject tag ≠ 0)
    (hl : env.NdisAllocateNetBufferListPool (env.NdisAllocateGenericObject tag)
      ⟨true, 0, tag⟩ = 0) :
    (IPv6ToBleNDISPoolDataPopulate env p tag s).1 = STATUS_INVALID_HANDLE ∧
    (IPv6ToBleNDISPoolDataPopulate env p tag s).2.trace
      = s.trace ++
        ([Event.NdisAllocateGenericObject tag (env.NdisAllocateGenericObject tag),
          Event.NdisAllocateNetBufferListPool (env.NdisAllocateGenericObject tag)
            ⟨true, 0, tag⟩ 0]
          ++ (if (s.mem p).nbPoolHandle = 0 then []
              else [Event.NdisFreeNetBufferPool (s.mem p).nbPoolHandle])
          ++ [Event.NdisFreeGenericObject (env.NdisAllocateGenericObject tag)]) ∧
    (IPv6ToBleNDISPoolDataPopulate env p tag s).2.mem p
      = ⟨0, 0, 0, List.replicate (s.mem p).rest.length 0⟩ := by
  by_cases hb : (s.mem p).nbPoolHandle = 0 <;>
  simp [IPv6ToBleNDISPoolDataPopulate, IPv6ToBleNDISPoolDataPopulate.Exit, hg, hl, hb,
    NT_SUCCESS, STATUS_INVALID_HANDLE, purge_trace, purge_mem_same, purgeEvents]

theorem populate_nb_null (env : Env) (p tag : Nat) (s : Machine)
    (hg : env.NdisAllocateGenericObject tag ≠ 0)
    (hl : env.NdisAllocateNetBufferListPool (env.NdisAllocateGenericObject tag)
      ⟨true, 0, tag⟩ ≠ 0)
    (hb : env.NdisAllocateNetBufferPool (env.NdisAllocateGenericObject tag)
      ⟨tag, 0⟩ = 0) :
    (IPv6ToBleNDISPoolDataPopulate env p tag s).1 = STATUS_INVALID_HANDLE ∧
    (IPv6ToBleNDISPoolDataPopulate env p tag s).2.trace
      = s.trace ++
        [Event.NdisAllocateGenericObject tag (env.NdisAllocateGenericObject tag),
          Event.NdisAllocateNetBufferListPool (env.NdisAllocateGenericObject tag)
            ⟨true, 0, tag⟩
            (env.NdisAllocateNetBufferListPool (env.NdisAllocateGenericObject tag)
              ⟨true, 0, tag⟩),
          Event.NdisAllocateNetBufferPool (env.NdisAllocateGenericObject tag)
            ⟨tag, 0⟩ 0,
          Event.NdisFreeNetBufferListPool
            (env.NdisAllocateNetBufferListPool (env.NdisAllocateGenericObject tag)
              ⟨true, 0, tag⟩),
          Event.NdisFreeGenericObject (env.NdisAllocateGenericObject tag)] ∧
    (IPv6ToBleNDISPoolDataPopulate env p tag s).2.mem p
      = ⟨0, 0, 0, List.replicate (s.mem p).rest.length 0⟩ := by
  simp [IPv6ToBleNDISPoolDataPopulate, IPv6ToBleNDISPoolDataPopulate.Exit, hg, hl, hb,
    NT_SUCCESS, STATUS_INVALID_HANDLE, purge_trace, purge_mem_same, purgeEvents]

theorem populate_all_ok (env : Env) (p tag : Nat) (s : Machine)
    (hg : env.NdisAllocateGenericObject tag ≠ 0)
    (hl : env.NdisAllocateNetBufferListPool (env.NdisAllocateGenericObject tag)
      ⟨true, 0, tag⟩ ≠ 0)
    (hb : env.NdisAllocateNetBufferPool (env.NdisAllocateGenericObject tag)
      ⟨tag, 0⟩ ≠ 0) :
    (IPv6ToBleNDISPoolDataPopulate env p tag s).1 = STATUS_SUCCESS ∧
    (IPv6ToBleNDISPoolDataPopulate env p tag s).2.trace
      = s.trace ++
        [Event.NdisAllocateGenericObject tag (env.NdisAllocateGenericObject tag),
          Event.NdisAllocateNetBufferListPool (env.NdisAllocateGenericObject tag)
            ⟨true, 0, tag⟩
            (env.NdisAllocateNetBufferListPool (env.NdisAllocateGenericObject tag)
              ⟨true, 0, tag⟩),
          Event.NdisAllocateNetBufferPool (env.NdisAllocateGenericObject tag)
            ⟨tag, 0⟩
            (env.NdisAllocateNetBufferPool (env.NdisAllocateGenericObject tag)
              ⟨tag, 0⟩)] ∧
    (IPv6ToBleNDISPoolDataPopulate env p tag s).2.mem p
      = ⟨env.NdisAllocateGenericObject tag,
         env.NdisAllocateNetBufferListPool (env.NdisAllocateGenericObject tag)
           ⟨true, 0, tag⟩,
         env.NdisAllocateNetBufferPool (env.NdisAllocateGenericObject tag) ⟨tag, 0⟩,
         (s.mem p).rest⟩ := by
  simp [IPv6ToBleNDISPoolDataPopulate, IPv6ToBleNDISPoolDataPopulate.Exit, hg, hl, hb,
    NT_SUCCESS, STATUS_SUCCESS]

theorem populate_ctx (env : Env) (p tag : Nat) (s : Machine) :
    (IPv6ToBleNDISPoolDataPopulate env p tag s).2.ctx = s.ctx := by
  unfold IPv6ToBleNDISPoolDataPopulate IPv6ToBleNDISPoolDataPopulate.Exit
  simp only []
  split_ifs <;> simp

/-! ## What destroy and create do -/

theorem destroy_trace (env : Env) (p : Nat) (s : Machine) (hp : p ≠ 0) :
    (IPv6ToBleNDISPoolDataDestroy env p s).trace
      = s.trace ++ (purgeEvents (s.mem p)
          ++ [Event.ExFreePoolWithTag p env.IPV6_TO_BLE_NDIS_TAG]) := by
  simp [IPv6ToBleNDISPoolDataDestroy, hp, purge_trace]

theorem destroy_mem_same (env : Env) (p : Nat) (s : Machine) (hp : p ≠ 0) :
    (IPv6ToBleNDISPoolDataDestroy env p s).mem p
      = ⟨0, 0, 0, List.replicate (s.mem p).rest.length 0⟩ := by
  simp [IPv6ToBleNDISPoolDataDestroy, hp, purge_mem_same]

@[simp] theorem destroy_ctx (env : Env) (p : Nat) (s : Machine) :
    (IPv6ToBleNDISPoolDataDestroy env p s).ctx = s.ctx := by
  unfold IPv6ToBleNDISPoolDataDestroy
  split_ifs <;> simp

theorem create_ctx (env : Env) (a tag : Nat) (s : Machine) :
    (IPv6ToBleNDISPoolDataCreate env a tag s).2.ctx = s.ctx := by
  unfold IPv6ToBleNDISPoolDataCreate
  simp only []
  split_ifs <;> simp [populate_ctx]

theorem create_of_populate_failure (env : Env) (a tag : Nat) (s : Machine)
    (hp : env.ExAllocatePoolWithTag tag ≠ 0)
    (hf : (IPv6ToBleNDISPoolDataPopulate env (env.ExAllocatePoolWithTag tag) tag
      (emit (.ExAllocatePoolWithTag tag (env.ExAllocatePoolWithTag tag)) s)).1
        = STATUS_INVALID_HANDLE) :
    IPv6ToBleNDISPoolDataCreate env a tag s
      = (STATUS_INVALID_HANDLE,
         IPv6ToBleNDISPoolDataDestroy env (env.ExAllocatePoolWithTag tag)
           (IPv6ToBleNDISPoolDataPopulate env (env.ExAllocatePoolWithTag tag) tag
             (emit (.ExAllocatePoolWithTag tag (env.ExAllocatePoolWithTag tag)) s)).2) := by
  unfold IPv6ToBleNDISPoolDataCreate
  simp [hp, hf, NT_SUCCESS, STATUS_INVALID_HANDLE]

theorem create_of_populate_success (env : Env) (a tag : Nat) (s : Machine)
    (hp : env.ExAllocatePoolWithTag tag ≠ 0)
    (hf : (IPv6ToBleNDISPoolDataPopulate env (env.ExAllocatePoolWithTag tag) tag
      (emit (.ExAllocatePoolWithTag tag (env.ExAllocatePoolWithTag tag)) s)).1
        = STATUS_SUCCESS) :
    IPv6ToBleNDISPoolDataCreate env a tag s
      = (STATUS_SUCCESS,
         (IPv6ToBleNDISPoolDataPopulate env (env.ExAllocatePoolWithTag tag) tag
           (emit (.ExAllocatePoolWithTag tag (env.ExAllocatePoolWithTag tag)) s)).2) := by
  unfold IPv6ToBleNDISPoolDataCreate
  simp [hp, hf, NT_SUCCESS, STATUS_SUCCESS]

theorem create_nbl_null (env : Env) (a tag : Nat) (s : Machine)
    (hp : env.ExAllocatePoolWithTag tag ≠ 0)
    (hg : env.NdisAllocateGenericObject tag ≠ 0)
    (hl : env.NdisAllocateNetBufferListPool (env.NdisAllocateGenericObject tag)
      ⟨true, 0, tag⟩ = 0) :
    (IPv6ToBleNDISPoolDataCreate env a tag s).1 = STATUS_INVALID_HANDLE ∧
    (IPv6ToBleNDISPoolDataCreate env a tag s).2.trace
      = s.trace ++
        ([Event.ExAllocatePoolWithTag tag (env.ExAllocatePoolWithTag tag),
          Event.NdisAllocateGenericObject tag (env.NdisAllocateGenericObject tag),
          Event.NdisAllocateNetBufferListPool (env.NdisAllocateGenericObject tag)
            ⟨true, 0, tag⟩ 0]
          ++ (if (s.mem (env.ExAllocatePoolWithTag tag)).nbPoolHandle = 0 then []
              else [Event.NdisFreeNetBufferPool
                (s.mem (env.ExAllocatePoolWithTag tag)).nbPoolHandle])
          ++ [Event.NdisFreeGenericObject (env.NdisAllocateGenericObject tag),
              Event.ExFreePoolWithTag (env.ExAllocatePoolWithTag tag)
                env.IPV6_TO_BLE_NDIS_TAG]) ∧
    (IPv6ToBleNDISPoolDataCreate env a tag s).2.mem (env.ExAllocatePoolWithTag tag)
      = ⟨0, 0, 0,
         List.replicate (s.mem (env.ExAllocatePoolWithTag tag)).rest.length 0⟩ := by
  obtain ⟨h1, h2, h3⟩ := populate_nbl_null env (env.ExAllocatePoolWithTag tag) tag
    (emit (.ExAllocatePoolWithTag tag (env.ExAllocatePoolWithTag tag)) s) hg hl
  rw [create_of_populate_failure env a tag s hp h1]
  refine ⟨rfl, ?_, ?_⟩
  · simp only [destroy_trace _ _ _ hp, h2, h3]
    simp [purgeEvents]
  · simp only [destroy_mem_same _ _ _ hp, h3]
    simp

theorem create_no_aggregate (env : Env) (a tag : Nat) (s : Machine)
    (hp : env.ExAllocatePoolWithTag tag = 0) :
    IPv6ToBleNDISPoolDataCreate env a tag s
      = (STATUS_INSUFFICIENT_RESOURCES, emit (.ExAllocatePoolWithTag tag 0) s) := by
  simp [IPv6ToBleNDISPoolDataCreate, hp]

theorem create_gen_null (env : Env) (a tag : Nat) (s : Machine)
    (hp : env.ExAllocatePoolWithTag tag ≠ 0)
    (hg : env.NdisAllocateGenericObject tag = 0) :
    (IPv6ToBleNDISPoolDataCreate env a tag s).1 = STATUS_INVALID_HANDLE ∧
    (IPv6ToBleNDISPoolDataCreate env a tag s).2.trace
      = s.trace ++
        [Event.ExAllocatePoolWithTag tag (env.ExAllocatePoolWithTag tag),
          Event.NdisAllocateGenericObject tag 0,
          Event.ExFreePoolWithTag (env.ExAllocatePoolWithTag tag)
            env.IPV6_TO_BLE_NDIS_TAG] ∧
    (IPv6ToBleNDISPoolDataCreate env a tag s).2.mem (env.ExAllocatePoolWithTag tag)
      = ⟨0, 0, 0,
         List.replicate (s.mem (env.ExAllocatePoolWithTag tag)).rest.length 0⟩ := by
  obtain ⟨h1, h2, h3⟩ := populate_gen_null env (env.ExAllocatePoolWithTag tag) tag
    (emit (.ExAllocatePoolWithTag tag (env.ExAllocatePoolWithTag tag)) s) hg
  rw [create_of_populate_failure env a tag s hp h1]
  refine ⟨rfl, ?_, ?_⟩
  · simp only [destroy_trace _ _ _ hp, h2, h3]
    simp [purgeEvents]
  · simp only [destroy_mem_same _ _ _ hp, h3]
    simp

theorem create_nb_null (env : Env) (a tag : Nat) (s : Machine)
    (hp : env.ExAllocatePoolWithTag tag ≠ 0)
    (hg : env.NdisAllocateGenericObject tag ≠ 0)
    (hl : env.NdisAllocateNetBufferListPool (env.NdisAllocateGenericObject tag)
      ⟨true, 0, tag⟩ ≠ 0)
    (hb : env.NdisAllocateNetBufferPool (env.NdisAllocateGenericObject tag)
      ⟨tag, 0⟩ = 0) :
    (IPv6ToBleNDISPoolDataCreate env a tag s).1 = STATUS_INVALID_HANDLE ∧
    (IPv6ToBleNDISPoolDataCreate env a tag s).2.trace
      = s.trace ++
        [Event.ExAllocatePoolWithTag tag (env.ExAllocatePoolWithTag tag),
          Event.NdisAllocateGenericObject tag (env.NdisAllocateGenericObject tag),
          Event.NdisAllocateNetBufferListPool (env.NdisAllocateGenericObject tag)
            ⟨true, 0, tag⟩
            (env.NdisAllocateNetBufferListPool (env.NdisAllocateGenericObject tag)
              ⟨true, 0, tag⟩),
          Event.NdisAllocateNetBufferPool (env.NdisAllocateGenericObject tag)
            ⟨tag, 0⟩ 0,
          Event.NdisFreeNetBufferListPool
            (env.NdisAllocateNetBufferListPool (env.NdisAllocateGenericObject tag)
              ⟨true, 0, tag⟩),
          Event.NdisFreeGenericObject (env.NdisAllocateGenericObject tag),
          Event.ExFreePoolWithTag (env.ExAllocatePoolWithTag tag)
            env.IPV6_TO_BLE_NDIS_TAG] ∧
    (IPv6ToBleNDISPoolDataCreate env a tag s).2.mem (env.ExAllocatePoolWithTag tag)
      = ⟨0, 0, 0,
         List.replicate (s.mem (env.ExAllocatePoolWithTag tag)).rest.length 0⟩ := by
  obtain ⟨h1, h2, h3⟩ := populate_nb_null env (env.ExAllocatePoolWithTag tag) tag
    (emit (.ExAllocatePoolWithTag tag (env.ExAllocatePoolWithTag tag)) s) hg hl hb
  rw [create_of_populate_failure env a tag s hp h1]
  refine ⟨rfl, ?_, ?_⟩
  · simp only [destroy_trace _ _ _ hp, h2, h3]
    simp [purgeEvents]
  · simp only [destroy_mem_same _ _ _ hp, h3]
    simp

theorem create_all_ok (env : Env) (a tag : Nat) (s : Machine)
    (hp : env.ExAllocatePoolWithTag tag ≠ 0)
    (hg : env.NdisAllocateGenericObject tag ≠ 0)
    (hl : env.NdisAllocateNetBufferListPool (env.NdisAllocateGenericObject tag)
      ⟨true, 0, tag⟩ ≠ 0)
    (hb : env.NdisAllocateNetBufferPool (env.NdisAllocateGenericObject tag)
      ⟨tag, 0⟩ ≠ 0) :
    (IPv6ToBleNDISPoolDataCreate env a tag s).1 = STATUS_SUCCESS ∧
    (IPv6ToBleNDISPoolDataCreate env a tag s).2.trace
      = s.trace ++
        [Event.ExAllocatePoolWithTag tag (env.ExAllocatePoolWithTag tag),
          Event.NdisAllocateGenericObject tag (env.NdisAllocateGenericObject tag),
          Event.NdisAllocateNetBufferListPool (env.NdisAllocateGenericObject tag)
            ⟨true, 0, tag⟩
            (env.NdisAllocateNetBufferListPool (env.NdisAllocateGenericObject tag)
              ⟨true, 0, tag⟩),
          Event.NdisAllocateNetBufferPool (env.NdisAllocateGenericObject tag)
            ⟨tag, 0⟩
            (env.NdisAllocateNetBufferPool (env.NdisAllocateGenericObject tag)
              ⟨tag, 0⟩)] ∧
    (IPv6ToBleNDISPoolDataCreate env a tag s).2.mem (env.ExAllocatePoolWithTag tag)
      = ⟨env.NdisAllocateGenericObject tag,
         env.NdisAllocateNetBufferListPool (env.NdisAllocateGenericObject tag)
           ⟨true, 0, tag⟩,
         env.NdisAllocateNetBufferPool (env.NdisAllocateGenericObject tag) ⟨tag, 0⟩,
         (s.mem (env.ExAllocatePoolWithTag tag)).rest⟩ := by
  obtain ⟨h1, h2, h3⟩ := populate_all_ok env (env.ExAllocatePoolWithTag tag) tag
    (emit (.ExAllocatePoolWithTag tag (env.ExAllocatePoolWithTag tag)) s) hg hl hb
  rw [create_of_populate_success env a tag s hp h1]
  refine ⟨rfl, ?_, ?_⟩
  · simp only [h2]
    simp
  · simp only [h3]
    simp

/-- Whatever the memory at a non-null `p` holds, destroy frees the aggregate
at `p` once. -/
theorem destroy_nonnull_frees_aggregate (env : Env) (p : Nat) (s : Machine)
    (hp : p ≠ 0) :
    aggregateFrees p (eventsSince s (IPv6ToBleNDISPoolDataDestroy env p s)) = 1 := by
  rw [eventsSince_of_trace _ _ _ (destroy_trace env p s hp)]
  by_cases hg : (s.mem p).ndisHandle = 0 <;>
  by_cases hb : (s.mem p).nbPoolHandle = 0 <;>
  by_cases hl : (s.mem p).nblPoolHandle = 0 <;>
  simp [aggregateFrees, purgeEvents, hg, hb, hl]

/-- With a null pool pointer in the device context, the part of device start
from pool creation on always reaches queue initialization, whatever pool
creation returned. -/
theorem poolAndLater_reaches_queues_when_pointer_null (env : Env) (s : Machine)
    (h0 : s.ctx.ndisPoolData = 0) :
    Event.IPv6ToBleQueuesInitialize env.IPv6ToBleQueuesInitialize
      ∈ (IPv6ToBleControlDeviceCreate.poolAndLater env s).2.trace := by
  unfold IPv6ToBleControlDeviceCreate.poolAndLater
  simp only [create_ctx, h0]
  simp only [ne_eq, not_true_eq_false, decide_False, Bool.and_false, Bool.false_eq_true,
    if_false]
  split_ifs <;> simp

/-! ## Claims -/

/-- C1 (the code departs from it): with every allocation succeeding,
`IPv6ToBleNDISPoolDataCreate` returns success and builds a pool with three
valid handles at the address the aggregate allocation answered, but the pointer
the caller holds (`deviceContext->ndisPoolData`, passed by value) is still null
afterwards, also once `IPv6ToBleControlDeviceCreate` has returned success. -/
theorem create_success_leaves_caller_pointer_null :
    (IPv6ToBleNDISPoolDataCreate okEnv bootMachine.ctx.ndisPoolData
      okEnv.IPV6_TO_BLE_NDIS_TAG bootMachine).1 = STATUS_SUCCESS ∧
    (IPv6ToBleNDISPoolDataCreate okEnv bootMachine.ctx.ndisPoolData
      okEnv.IPV6_TO_BLE_NDIS_TAG bootMachine).2.mem 100 = ⟨11, 12, 13, []⟩ ∧
    (IPv6ToBleNDISPoolDataCreate okEnv bootMachine.ctx.ndisPoolData
      okEnv.IPV6_TO_BLE_NDIS_TAG bootMachine).2.ctx.ndisPoolData = 0 ∧
    (IPv6ToBleControlDeviceCreate okEnv bootMachine).1 = STATUS_SUCCESS ∧
    (IPv6ToBleControlDeviceCreate okEnv bootMachine).2.mem 100 = ⟨11, 12, 13, []⟩ ∧
    (IPv6ToBleControlDeviceCreate okEnv bootMachine).2.ctx.ndisPoolData = 0 := by
  decide

/-- C2: `IPv6ToBleNDISPoolDataPopulate` returns success exactly when the
generation-handle, buffer-list-pool and buffer-pool allocators all answer a
non-null handle; on success the structure holds exactly those three handles;
the generation handle is always requested, the buffer-list pool exactly when
the generation handle came back non-null, and the buffer pool exactly when both
earlier handles came back non-null. -/
theorem populate_success_iff_all_allocations_succeed (env : Env) (p tag : Nat)
    (s : Machine) :
    ((IPv6ToBleNDISPoolDataPopulate env p tag s).1 = STATUS_SUCCESS ↔
      genAnswer env tag ≠ 0 ∧ nblAnswer env tag ≠ 0 ∧ nbAnswer env tag ≠ 0) ∧
    (NT_SUCCESS (IPv6ToBleNDISPoolDataPopulate env p tag s).1 = true ↔
      genAnswer env tag ≠ 0 ∧ nblAnswer env tag ≠ 0 ∧ nbAnswer env tag ≠ 0) ∧
    ((IPv6ToBleNDISPoolDataPopulate env p tag s).1 = STATUS_SUCCESS →
      (IPv6ToBleNDISPoolDataPopulate env p tag s).2.mem p
        = ⟨genAnswer env tag, nblAnswer env tag, nbAnswer env tag, (s.mem p).rest⟩) ∧
    ((eventsSince s (IPv6ToBleNDISPoolDataPopulate env p tag s).2).any
        Event.isNblPoolAttempt = true ↔ genAnswer env tag ≠ 0) ∧
    ((eventsSince s (IPv6ToBleNDISPoolDataPopulate env p tag s).2).any
        Event.isNbPoolAttempt = true ↔
      genAnswer env tag ≠ 0 ∧ nblAnswer env tag ≠ 0) := by
  unfold genAnswer nblAnswer nbAnswer
  by_cases hg : env.NdisAllocateGenericObject tag = 0
  · obtain ⟨h1, h2, _⟩ := populate_gen_null env p tag s hg
    rw [eventsSince_of_trace _ _ _ h2, h1]
    simp [hg, STATUS_INVALID_HANDLE, STATUS_SUCCESS, NT_SUCCESS, Event.isNblPoolAttempt,
      Event.isNbPoolAttempt]
  · by_cases hl : env.NdisAllocateNetBufferListPool (env.NdisAllocateGenericObject tag)
        ⟨true, 0, tag⟩ = 0
    · obtain ⟨h1, h2, _⟩ := populate_nbl_null env p tag s hg hl
      rw [eventsSince_of_trace _ _ _ h2, h1]
      by_cases hb : (s.mem p).nbPoolHandle = 0 <;>
      simp [hg, hl, hb, STATUS_INVALID_HANDLE, STATUS_SUCCESS, NT_SUCCESS,
        Event.isNblPoolAttempt, Event.isNbPoolAttempt]
    · by_cases hb : env.NdisAllocateNetBufferPool (env.NdisAllocateGenericObject tag)
          ⟨tag, 0⟩ = 0
      · obtain ⟨h1, h2, _⟩ := populate_nb_null env p tag s hg hl hb
        rw [eventsSince_of_trace _ _ _ h2, h1]
        simp [hg, hl, hb, STATUS_INVALID_HANDLE, STATUS_SUCCESS, NT_SUCCESS,
          Event.isNblPoolAttempt, Event.isNbPoolAttempt]
      · obtain ⟨h1, h2, h3⟩ := populate_all_ok env p tag s hg hl hb
        rw [eventsSince_of_trace _ _ _ h2, h1, h3]
        simp [hg, hl, hb, STATUS_SUCCESS, NT_SUCCESS, Event.isNblPoolAttempt,
          Event.isNbPoolAttempt]

/-- C3: whatever the structure held before and whatever the allocators answer,
after `IPv6ToBleNDISPoolDataPopulate` the three handles are either all non-null
with status success, or all null with status `STATUS_INVALID_HANDLE`. -/
theorem populate_handles_all_or_none (env : Env) (p tag : Nat) (s : Machine) :
    (((IPv6ToBleNDISPoolDataPopulate env p tag s).2.mem p).ndisHandle ≠ 0 ∧
      ((IPv6ToBleNDISPoolDataPopulate env p tag s).2.mem p).nblPoolHandle ≠ 0 ∧
      ((IPv6ToBleNDISPoolDataPopulate env p tag s).2.mem p).nbPoolHandle ≠ 0 ∧
      (IPv6ToBleNDISPoolDataPopulate env p tag s).1 = STATUS_SUCCESS) ∨
    (((IPv6ToBleNDISPoolDataPopulate env p tag s).2.mem p).ndisHandle = 0 ∧
      ((IPv6ToBleNDISPoolDataPopulate env p tag s).2.mem p).nblPoolHandle = 0 ∧
      ((IPv6ToBleNDISPoolDataPopulate env p tag s).2.mem p).nbPoolHandle = 0 ∧
      (IPv6ToBleNDISPoolDataPopulate env p tag s).1 = STATUS_INVALID_HANDLE) := by
  by_cases hg : env.NdisAllocateGenericObject tag = 0
  · obtain ⟨h1, _, h3⟩ := populate_gen_null env p tag s hg
    right
    simp [h1, h3]
  · by_cases hl : env.NdisAllocateNetBufferListPool (env.NdisAllocateGenericObject tag)
        ⟨true, 0, tag⟩ = 0
    · obtain ⟨h1, _, h3⟩ := populate_nbl_null env p tag s hg hl
      right
      simp [h1, h3]
    · by_cases hb : env.NdisAllocateNetBufferPool (env.NdisAllocateGenericObject tag)
          ⟨tag, 0⟩ = 0
      · obtain ⟨h1, _, h3⟩ := populate_nb_null env p tag s hg hl hb
        right
        simp [h1, h3]
      · obtain ⟨h1, _, h3⟩ := populate_all_ok env p tag s hg hl hb
        left
        simp [h1, h3, hg, hl, hb]

/-- C4 (the code departs from it): the aggregate memory is handed out
uninitialised; when the buffer-list pool allocation fails after the generation
handle succeeded, the purge finds the stale word `55` in the buffer pool field
and releases it, although no buffer pool was ever allocated during the call. -/
theorem create_failure_releases_stale_buffer_pool :
    (IPv6ToBleNDISPoolDataCreate nblFailEnv staleMachine.ctx.ndisPoolData 7
      staleMachine).1 = STATUS_INVALID_HANDLE ∧
    (IPv6ToBleNDISPoolDataCreate nblFailEnv staleMachine.ctx.ndisPoolData 7
      staleMachine).2.trace
      = [Event.ExAllocatePoolWithTag 7 100,
         Event.NdisAllocateGenericObject 7 11,
         Event.NdisAllocateNetBufferListPool 11 ⟨true, 0, 7⟩ 0,
         Event.NdisFreeNetBufferPool 55,
         Event.NdisFreeGenericObject 11,
         Event.ExFreePoolWithTag 100 7] ∧
    (IPv6ToBleNDISPoolDataCreate nblFailEnv staleMachine.ctx.ndisPoolData 7
      staleMachine).2.trace.any Event.isNbPoolAttempt = false ∧
    nbPoolReleases 55
      (IPv6ToBleNDISPoolDataCreate nblFailEnv staleMachine.ctx.ndisPoolData 7
        staleMachine).2.trace = 1 := by
  decide

/-- C5, as stated, fails: in Scenario C (aggregate and generation handle
allocated, buffer-list pool allocator answers null) the status that
`IPv6ToBleNDISPoolDataCreate` returns is not `STATUS_INSUFFICIENT_RESOURCES`. -/
theorem scenarioC_status_not_insufficient_resources :
    nblFailEnv.ExAllocatePoolWithTag 7 ≠ 0 ∧
    genAnswer nblFailEnv 7 ≠ 0 ∧
    nblAnswer nblFailEnv 7 = 0 ∧
    (IPv6ToBleNDISPoolDataCreate nblFailEnv bootMachine.ctx.ndisPoolData 7
      bootMachine).1 ≠ STATUS_INSUFFICIENT_RESOURCES := by
  decide

/-- C5, amended: in Scenario C (aggregate and generation handle allocated,
buffer-list pool allocator answers null) `IPv6ToBleNDISPoolDataCreate` returns
`STATUS_INVALID_HANDLE`, an error, and the aggregate is fully torn down: its
three handles are null, the generation handle was released once and the
aggregate memory was freed once. -/
theorem scenarioC_torn_down_with_invalid_handle (env : Env) (a tag : Nat)
    (s : Machine)
    (hp : env.ExAllocatePoolWithTag tag ≠ 0)
    (hg : genAnswer env tag ≠ 0)
    (hl : nblAnswer env tag = 0) :
    (IPv6ToBleNDISPoolDataCreate env a tag s).1 = STATUS_INVALID_HANDLE ∧
    NT_SUCCESS (IPv6ToBleNDISPoolDataCreate env a tag s).1 = false ∧
    ((IPv6ToBleNDISPoolDataCreate env a tag s).2.mem
      (env.ExAllocatePoolWithTag tag)).ndisHandle = 0 ∧
    ((IPv6ToBleNDISPoolDataCreate env a tag s).2.mem
      (env.ExAllocatePoolWithTag tag)).nblPoolHandle = 0 ∧
    ((IPv6ToBleNDISPoolDataCreate env a tag s).2.mem
      (env.ExAllocatePoolWithTag tag)).nbPoolHandle = 0 ∧
    ndisHandleReleases (genAnswer env tag)
      (eventsSince s (IPv6ToBleNDISPoolDataCreate env a tag s).2) = 1 ∧
    aggregateFrees (env.ExAllocatePoolWithTag tag)
      (eventsSince s (IPv6ToBleNDISPoolDataCreate env a tag s).2) = 1 := by
  unfold genAnswer at hg
  unfold nblAnswer at hl
  unfold genAnswer
  obtain ⟨h1, h2, h3⟩ := create_nbl_null env a tag s hp hg hl
  rw [eventsSince_of_trace _ _ _ h2, h1, h3]
  refine ⟨rfl, by decide, rfl, rfl, rfl, ?_, ?_⟩
  · by_cases hb : (s.mem (env.ExAllocatePoolWithTag tag)).nbPoolHandle = 0 <;>
    simp [ndisHandleReleases, hb]
  · by_cases hb : (s.mem (env.ExAllocatePoolWithTag tag)).nbPoolHandle = 0 <;>
    simp [aggregateFrees, hb]

/-- Witness of `scenarioC_torn_down_with_invalid_handle` on the booted machine
with the buffer-list pool allocator answering null. -/
theorem scenarioC_torn_down_with_invalid_handle_witness :
    (IPv6ToBleNDISPoolDataCreate nblFailEnv 0 7 bootMachine).1 = STATUS_INVALID_HANDLE ∧
    NT_SUCCESS (IPv6ToBleNDISPoolDataCreate nblFailEnv 0 7 bootMachine).1 = false ∧
    ((IPv6ToBleNDISPoolDataCreate nblFailEnv 0 7 bootMachine).2.mem
      (nblFailEnv.ExAllocatePoolWithTag 7)).ndisHandle = 0 ∧
    ((IPv6ToBleNDISPoolDataCreate nblFailEnv 0 7 bootMachine).2.mem
      (nblFailEnv.ExAllocatePoolWithTag 7)).nblPoolHandle = 0 ∧
    ((IPv6ToBleNDISPoolDataCreate nblFailEnv 0 7 bootMachine).2.mem
      (nblFailEnv.ExAllocatePoolWithTag 7)).nbPoolHandle = 0 ∧
    ndisHandleReleases (genAnswer nblFailEnv 7)
      (eventsSince bootMachine (IPv6ToBleNDISPoolDataCreate nblFailEnv 0 7 bootMachine).2)
        = 1 ∧
    aggregateFrees (nblFailEnv.ExAllocatePoolWithTag 7)
      (eventsSince bootMachine (IPv6ToBleNDISPoolDataCreate nblFailEnv 0 7 bootMachine).2)
        = 1 :=
  scenarioC_torn_down_with_invalid_handle nblFailEnv 0 7 bootMachine
    (by decide) (by decide) (by decide)

/-- C6 (the code departs from it): `IPv6ToBleNDISPoolDataDestroy` nulls only
its own copy of the pointer. After the first call the pointer held in the
device context still names the freed aggregate, and a second call on it frees
the aggregate memory a second time. -/
theorem destroy_twice_frees_aggregate_twice :
    liveMachine.ctx.ndisPoolData = 100 ∧
    (IPv6ToBleNDISPoolDataDestroy okEnv liveMachine.ctx.ndisPoolData
      liveMachine).ctx.ndisPoolData = 100 ∧
    (IPv6ToBleNDISPoolDataDestroy okEnv liveMachine.ctx.ndisPoolData liveMachine).trace
      = [Event.NdisFreeNetBufferPool 13,
         Event.NdisFreeNetBufferListPool 12,
         Event.NdisFreeGenericObject 11,
         Event.ExFreePoolWithTag 100 7] ∧
    eventsSince
      (IPv6ToBleNDISPoolDataDestroy okEnv liveMachine.ctx.ndisPoolData liveMachine)
      (IPv6ToBleNDISPoolDataDestroy okEnv
        (IPv6ToBleNDISPoolDataDestroy okEnv liveMachine.ctx.ndisPoolData
          liveMachine).ctx.ndisPoolData
        (IPv6ToBleNDISPoolDataDestroy okEnv liveMachine.ctx.ndisPoolData liveMachine))
      = [Event.ExFreePoolWithTag 100 7] ∧
    aggregateFrees 100
      (IPv6ToBleEvtDeviceCleanup okEnv
        (IPv6ToBleEvtDeviceCleanup okEnv liveMachine)).trace = 2 := by
  decide

/-- C7: on a structure whose three handles are all non-null,
`IPv6ToBleNDISPoolDataPurge` issues exactly three releases, the buffer pool
first, then the buffer-list pool, then the generation handle, and afterwards
every field of the structure is zero. -/
theorem purge_full_structure_releases_in_reverse_order (p : Nat) (s : Machine)
    (hg : (s.mem p).ndisHandle ≠ 0)
    (hl : (s.mem p).nblPoolHandle ≠ 0)
    (hb : (s.mem p).nbPoolHandle ≠ 0) :
    eventsSince s (IPv6ToBleNDISPoolDataPurge p s)
      = [Event.NdisFreeNetBufferPool (s.mem p).nbPoolHandle,
         Event.NdisFreeNetBufferListPool (s.mem p).nblPoolHandle,
         Event.NdisFreeGenericObject (s.mem p).ndisHandle] ∧
    ((IPv6ToBleNDISPoolDataPurge p s).mem p).ndisHandle = 0 ∧
    ((IPv6ToBleNDISPoolDataPurge p s).mem p).nblPoolHandle = 0 ∧
    ((IPv6ToBleNDISPoolDataPurge p s).mem p).nbPoolHandle = 0 ∧
    (∀ w ∈ ((IPv6ToBleNDISPoolDataPurge p s).mem p).rest, w = 0) ∧
    ((IPv6ToBleNDISPoolDataPurge p s).mem p).rest.length = (s.mem p).rest.length := by
  rw [eventsSince_of_trace _ _ _ (purge_trace p s), purge_mem_same]
  simp [purgeEvents, hg, hl, hb]

/-- Witness of `purge_full_structure_releases_in_reverse_order` on the fully
populated pool at address `100`. -/
theorem purge_full_structure_releases_in_reverse_order_witness :
    eventsSince liveMachine (IPv6ToBleNDISPoolDataPurge 100 liveMachine)
      = [Event.NdisFreeNetBufferPool (liveMachine.mem 100).nbPoolHandle,
         Event.NdisFreeNetBufferListPool (liveMachine.mem 100).nblPoolHandle,
         Event.NdisFreeGenericObject (liveMachine.mem 100).ndisHandle] ∧
    ((IPv6ToBleNDISPoolDataPurge 100 liveMachine).mem 100).ndisHandle = 0 ∧
    ((IPv6ToBleNDISPoolDataPurge 100 liveMachine).mem 100).nblPoolHandle = 0 ∧
    ((IPv6ToBleNDISPoolDataPurge 100 liveMachine).mem 100).nbPoolHandle = 0 ∧
    (∀ w ∈ ((IPv6ToBleNDISPoolDataPurge 100 liveMachine).mem 100).rest, w = 0) ∧
    ((IPv6ToBleNDISPoolDataPurge 100 liveMachine).mem 100).rest.length
      = (liveMachine.mem 100).rest.length :=
  purge_full_structure_releases_in_reverse_order 100 liveMachine
    (by decide) (by decide) (by decide)

/-- C8, as stated, fails: on a structure whose generation handle is null and
whose buffer pool handle is non-null, `IPv6ToBleNDISPoolDataPurge` releases
nothing, so the non-null buffer pool handle is not released. -/
theorem purge_skips_pools_when_generation_handle_null :
    (orphanPoolMachine.mem 100).ndisHandle = 0 ∧
    (orphanPoolMachine.mem 100).nbPoolHandle = 13 ∧
    eventsSince orphanPoolMachine (IPv6ToBleNDISPoolDataPurge 100 orphanPoolMachine)
      = [] ∧
    nbPoolReleases 13
      (eventsSince orphanPoolMachine (IPv6ToBleNDISPoolDataPurge 100 orphanPoolMachine))
      = 0 := by
  decide

/-- C8, amended: for every structure, `IPv6ToBleNDISPoolDataPurge` releases
nothing when the generation handle is null; when it is non-null, the buffer
pool and the buffer-list pool are released each independently of the other
(once if non-null on entry, skipped if null), followed by one release of the
generation handle. -/
theorem purge_releases_guarded_by_generation_handle (p : Nat) (s : Machine) :
    eventsSince s (IPv6ToBleNDISPoolDataPurge p s)
      = if (s.mem p).ndisHandle = 0 then []
        else
          (if (s.mem p).nbPoolHandle = 0 then []
            else [Event.NdisFreeNetBufferPool (s.mem p).nbPoolHandle])
          ++ (if (s.mem p).nblPoolHandle = 0 then []
              else [Event.NdisFreeNetBufferListPool (s.mem p).nblPoolHandle])
          ++ [Event.NdisFreeGenericObject (s.mem p).ndisHandle] := by
  rw [eventsSince_of_trace _ _ _ (purge_trace p s)]
  rfl

/-- C9 (the code departs from it): with the aggregate allocation failing,
`IPv6ToBleNDISPoolDataCreate` returns `STATUS_INSUFFICIENT_RESOURCES`, yet
`IPv6ToBleControlDeviceCreate`, whose context pointer is null, goes on to
initialize the queues, create and start the timer, and returns success. -/
theorem pool_creation_failure_does_not_stop_device_start :
    NT_SUCCESS (IPv6ToBleNDISPoolDataCreate noAggregateEnv bootMachine.ctx.ndisPoolData
      noAggregateEnv.IPV6_TO_BLE_NDIS_TAG bootMachine).1 = false ∧
    (IPv6ToBleControlDeviceCreate noAggregateEnv bootMachine).1 = STATUS_SUCCESS ∧
    ((IPv6ToBleControlDeviceCreate noAggregateEnv bootMachine).2.trace.filter
        Event.isLaterStartStep)
      = [Event.IPv6ToBleQueuesInitialize STATUS_SUCCESS,
         Event.WdfTimerCreate STATUS_SUCCESS,
         Event.WdfTimerStart] ∧
    (IPv6ToBleControlDeviceCreate noAggregateEnv bootMachine).2.trace
      = [Event.WdfControlDeviceInitAllocate 1,
         Event.WdfDeviceInitSetDeviceType,
         Event.WdfDeviceInitSetCharacteristics,
         Event.WdfDeviceInitAssignName STATUS_SUCCESS,
         Event.WdfDeviceCreate STATUS_SUCCESS,
         Event.WdfControlFinishInitializing,
         Event.WdfDeviceCreateSymbolicLink STATUS_SUCCESS,
         Event.WdfSpinLockCreate Lock.listenRequestQueueLock STATUS_SUCCESS,
         Event.WdfSpinLockCreate Lock.whiteListModifiedLock STATUS_SUCCESS,
         Event.WdfSpinLockCreate Lock.meshListModifiedLock STATUS_SUCCESS,
         Event.InitializeListHead RuntimeList.whiteList,
         Event.InitializeListHead RuntimeList.meshList,
         Event.ExAllocatePoolWithTag 7 0,
         Event.IPv6ToBleQueuesInitialize STATUS_SUCCESS,
         Event.WdfTimerCreate STATUS_SUCCESS,
         Event.WdfTimerStart] := by
  decide

/-- C10: with work-item allocation succeeding, one run of
`IPv6ToBleDeviceTimerCheckAndFlushLists` queues exactly one white-list flush
work item when `whiteListModified` is set and none when it is clear, and
exactly one mesh-list flush work item when `meshListModified` is set and none
when it is clear, each list decided by its own flag alone. -/
theorem timer_queues_flush_iff_list_modified (env : Env) (s : Machine)
    (hAlloc : ∀ n, env.IoAllocateWorkItem n ≠ 0) :
    queued Routine.IPv6ToBleRegistryFlushWhiteListWorkItemEx
        (eventsSince s (IPv6ToBleDeviceTimerCheckAndFlushLists env s))
      = (if s.ctx.whiteListModified = true then 1 else 0) ∧
    queued Routine.IPv6ToBleRegistryFlushMeshListWorkItemEx
        (eventsSince s (IPv6ToBleDeviceTimerCheckAndFlushLists env s))
      = (if s.ctx.meshListModified = true then 1 else 0) := by
  have h0 := hAlloc s.workItemCalls
  have h1 := hAlloc (s.workItemCalls + 1)
  cases hw : s.ctx.whiteListModified <;> cases hm : s.ctx.meshListModified <;>
  simp [IPv6ToBleDeviceTimerCheckAndFlushLists, eventsSince, queued, hw, hm, h0, h1,
    emit]

/-- Witness of `timer_queues_flush_iff_list_modified`: white list modified,
mesh list clean, allocation answering `n + 1`. -/
theorem timer_queues_flush_iff_list_modified_witness :
    queued Routine.IPv6ToBleRegistryFlushWhiteListWorkItemEx
        (eventsSince whiteDirtyMachine
          (IPv6ToBleDeviceTimerCheckAndFlushLists okEnv whiteDirtyMachine))
      = (if whiteDirtyMachine.ctx.whiteListModified = true then 1 else 0) ∧
    queued Routine.IPv6ToBleRegistryFlushMeshListWorkItemEx
        (eventsSince whiteDirtyMachine
          (IPv6ToBleDeviceTimerCheckAndFlushLists okEnv whiteDirtyMachine))
      = (if whiteDirtyMachine.ctx.meshListModified = true then 1 else 0) :=
  timer_queues_flush_iff_list_modified okEnv whiteDirtyMachine
    (fun n => Nat.succ_ne_zero n)

/-! ## What the periodic check does -/

@[simp] theorem timer_ctx (env : Env) (s : Machine) :
    (IPv6ToBleDeviceTimerCheckAndFlushLists env s).ctx = s.ctx := by
  unfold IPv6ToBleDeviceTimerCheckAndFlushLists
  simp only []
  split_ifs <;> simp

theorem timer_trace_extends (env : Env) (s : Machine) :
    ∃ l, (IPv6ToBleDeviceTimerCheckAndFlushLists env s).trace = s.trace ++ l := by
  unfold IPv6ToBleDeviceTimerCheckAndFlushLists
  simp only []
  split_ifs <;> simp

theorem timerRuns_ctx (env : Env) (n : Nat) (s : Machine) :
    (timerRuns env n s).ctx = s.ctx := by
  induction n generalizing s with
  | zero => rfl
  | succ n ih => simp [timerRuns, ih]

theorem timerRuns_trace_extends (env : Env) (n : Nat) (s : Machine) :
    ∃ l, (timerRuns env n s).trace = s.trace ++ l := by
  induction n generalizing s with
  | zero => exact ⟨[], by simp [timerRuns]⟩
  | succ n ih =>
    obtain ⟨l₁, h₁⟩ := timer_trace_extends env s
    obtain ⟨l₂, h₂⟩ := ih (IPv6ToBleDeviceTimerCheckAndFlushLists env s)
    exact ⟨l₁ ++ l₂, by simp [timerRuns, h₂, h₁]⟩

theorem queued_append (r : Routine) (a b : List Event) :
    queued r (a ++ b) = queued r a + queued r b := by
  simp [queued]

theorem timer_queued_total (env : Env) (s : Machine)
    (hAlloc : ∀ n, env.IoAllocateWorkItem n ≠ 0) :
    queued Routine.IPv6ToBleRegistryFlushWhiteListWorkItemEx
        (IPv6ToBleDeviceTimerCheckAndFlushLists env s).trace
      = queued Routine.IPv6ToBleRegistryFlushWhiteListWorkItemEx s.trace
        + (if s.ctx.whiteListModified = true then 1 else 0) ∧
    queued Routine.IPv6ToBleRegistryFlushMeshListWorkItemEx
        (IPv6ToBleDeviceTimerCheckAndFlushLists env s).trace
      = queued Routine.IPv6ToBleRegistryFlushMeshListWorkItemEx s.trace
        + (if s.ctx.meshListModified = true then 1 else 0) := by
  have h0 := hAlloc s.workItemCalls
  have h1 := hAlloc (s.workItemCalls + 1)
  cases hw : s.ctx.whiteListModified <;> cases hm : s.ctx.meshListModified <;>
  simp [IPv6ToBleDeviceTimerCheckAndFlushLists, queued, hw, hm, h0, h1, emit]

theorem timerRuns_queued_total (env : Env) (n : Nat) (s : Machine)
    (hAlloc : ∀ n, env.IoAllocateWorkItem n ≠ 0) :
    queued Routine.IPv6ToBleRegistryFlushWhiteListWorkItemEx (timerRuns env n s).trace
      = queued Routine.IPv6ToBleRegistryFlushWhiteListWorkItemEx s.trace
        + (if s.ctx.whiteListModified = true then n else 0) ∧
    queued Routine.IPv6ToBleRegistryFlushMeshListWorkItemEx (timerRuns env n s).trace
      = queued Routine.IPv6ToBleRegistryFlushMeshListWorkItemEx s.trace
        + (if s.ctx.meshListModified = true then n else 0) := by
  induction n generalizing s with
  | zero => simp [timerRuns]
  | succ n ih =>
    obtain ⟨hw, hm⟩ := ih (IPv6ToBleDeviceTimerCheckAndFlushLists env s)
    obtain ⟨hw1, hm1⟩ := timer_queued_total env s hAlloc
    simp only [timerRuns, hw, hm, hw1, hm1, timer_ctx]
    constructor <;> split_ifs <;> omega

theorem queued_eventsSince (r : Routine) (s s' : Machine) (l : List Event)
    (h : s'.trace = s.trace ++ l) :
    queued r (eventsSince s s') + queued r s.trace = queued r s'.trace := by
  rw [eventsSince_of_trace s s' l h, h, queued_append]
  omega

/-- C11, as stated, fails: on a machine whose white list is modified, the first
periodic check queues a white-list flush work item; nothing completes it, and
the second periodic check queues another one, so two are outstanding. -/
theorem second_run_queues_flush_again :
    queued Routine.IPv6ToBleRegistryFlushWhiteListWorkItemEx
      (IPv6ToBleDeviceTimerCheckAndFlushLists okEnv whiteDirtyMachine).trace = 1 ∧
    queued Routine.IPv6ToBleRegistryFlushWhiteListWorkItemEx
      (eventsSince (IPv6ToBleDeviceTimerCheckAndFlushLists okEnv whiteDirtyMachine)
        (IPv6ToBleDeviceTimerCheckAndFlushLists okEnv
          (IPv6ToBleDeviceTimerCheckAndFlushLists okEnv whiteDirtyMachine))) = 1 ∧
    (timerRuns okEnv 2 whiteDirtyMachine).trace
      = [Event.WdfSpinLockAcquire Lock.whiteListModifiedLock,
         Event.IoAllocateWorkItem 1,
         Event.IoQueueWorkItemEx 1 Routine.IPv6ToBleRegistryFlushWhiteListWorkItemEx,
         Event.WdfSpinLockRelease Lock.whiteListModifiedLock,
         Event.WdfSpinLockAcquire Lock.meshListModifiedLock,
         Event.WdfSpinLockRelease Lock.meshListModifiedLock,
         Event.WdfSpinLockAcquire Lock.whiteListModifiedLock,
         Event.IoAllocateWorkItem 2,
         Event.IoQueueWorkItemEx 2 Routine.IPv6ToBleRegistryFlushWhiteListWorkItemEx,
         Event.WdfSpinLockRelease Lock.whiteListModifiedLock,
         Event.WdfSpinLockAcquire Lock.meshListModifiedLock,
         Event.WdfSpinLockRelease Lock.meshListModifiedLock] ∧
    queued Routine.IPv6ToBleRegistryFlushWhiteListWorkItemEx
      (timerRuns okEnv 2 whiteDirtyMachine).trace = 2 := by
  decide

/-- C11, amended: the periodic check keeps no record of outstanding flush work.
With work-item allocation succeeding, `n` consecutive runs with nothing
completing in between queue `n` flush work items for a list whose modified
flag is set and none for a list whose flag is clear, for each list on its own;
the only bound is one work item per list per run. -/
theorem timer_runs_queue_one_flush_per_run (env : Env) (n : Nat) (s : Machine)
    (hAlloc : ∀ k, env.IoAllocateWorkItem k ≠ 0) :
    queued Routine.IPv6ToBleRegistryFlushWhiteListWorkItemEx
        (eventsSince s (timerRuns env n s))
      = (if s.ctx.whiteListModified = true then n else 0) ∧
    queued Routine.IPv6ToBleRegistryFlushMeshListWorkItemEx
        (eventsSince s (timerRuns env n s))
      = (if s.ctx.meshListModified = true then n else 0) := by
  obtain ⟨l, hl⟩ := timerRuns_trace_extends env n s
  obtain ⟨hw, hm⟩ := timerRuns_queued_total env n s hAlloc
  have ew := queued_eventsSince Routine.IPv6ToBleRegistryFlushWhiteListWorkItemEx
    s (timerRuns env n s) l hl
  have em := queued_eventsSince Routine.IPv6ToBleRegistryFlushMeshListWorkItemEx
    s (timerRuns env n s) l hl
  constructor <;> omega

/-- Witness of `timer_runs_queue_one_flush_per_run`: three runs, white list
modified, mesh list clean, allocation answering `k + 1`. -/
theorem timer_runs_queue_one_flush_per_run_witness :
    queued Routine.IPv6ToBleRegistryFlushWhiteListWorkItemEx
        (eventsSince whiteDirtyMachine (timerRuns okEnv 3 whiteDirtyMachine))
      = (if whiteDirtyMachine.ctx.whiteListModified = true then 3 else 0) ∧
    queued Routine.IPv6ToBleRegistryFlushMeshListWorkItemEx
        (eventsSince whiteDirtyMachine (timerRuns okEnv 3 whiteDirtyMachine))
      = (if whiteDirtyMachine.ctx.meshListModified = true then 3 else 0) :=
  timer_runs_queue_one_flush_per_run okEnv 3 whiteDirtyMachine
    (fun k => Nat.succ_ne_zero k)

/-! ## Device start from pool creation on -/

theorem create_all_ok_releases_nothing (env : Env) (a tag : Nat) (s : Machine)
    (hp : env.ExAllocatePoolWithTag tag ≠ 0)
    (hg : env.NdisAllocateGenericObject tag ≠ 0)
    (hl : env.NdisAllocateNetBufferListPool (env.NdisAllocateGenericObject tag)
      ⟨true, 0, tag⟩ ≠ 0)
    (hb : env.NdisAllocateNetBufferPool (env.NdisAllocateGenericObject tag)
      ⟨tag, 0⟩ ≠ 0) :
    ∃ l, (IPv6ToBleNDISPoolDataCreate env a tag s).2.trace = s.trace ++ l ∧
      l.any Event.isRelease = false := by
  obtain ⟨_, h2, _⟩ := create_all_ok env a tag s hp hg hl hb
  exact ⟨_, h2, by simp [Event.isRelease]⟩

theorem poolAndLater_queue_fails (env : Env) (s : Machine)
    (hp : env.ExAllocatePoolWithTag env.IPV6_TO_BLE_NDIS_TAG ≠ 0)
    (hg : env.NdisAllocateGenericObject env.IPV6_TO_BLE_NDIS_TAG ≠ 0)
    (hl : env.NdisAllocateNetBufferListPool
      (env.NdisAllocateGenericObject env.IPV6_TO_BLE_NDIS_TAG)
      ⟨true, 0, env.IPV6_TO_BLE_NDIS_TAG⟩ ≠ 0)
    (hb : env.NdisAllocateNetBufferPool
      (env.NdisAllocateGenericObject env.IPV6_TO_BLE_NDIS_TAG)
      ⟨env.IPV6_TO_BLE_NDIS_TAG, 0⟩ ≠ 0)
    (hq : NT_SUCCESS env.IPv6ToBleQueuesInitialize = false) :
    StopsWith s (IPv6ToBleControlDeviceCreate.poolAndLater env s)
      env.IPv6ToBleQueuesInitialize
      (.IPv6ToBleQueuesInitialize env.IPv6ToBleQueuesInitialize) := by
  obtain ⟨h1, _, _⟩ := create_all_ok env s.ctx.ndisPoolData env.IPV6_TO_BLE_NDIS_TAG s
    hp hg hl hb
  obtain ⟨l, h2, hrel⟩ := create_all_ok_releases_nothing env s.ctx.ndisPoolData
    env.IPV6_TO_BLE_NDIS_TAG s hp hg hl hb
  unfold StopsWith IPv6ToBleControlDeviceCreate.poolAndLater
  simp only [h1, hq]
  refine ⟨by simp [NT_SUCCESS, STATUS_SUCCESS], l, ?_, hrel⟩
  simp [NT_SUCCESS, STATUS_SUCCESS, h2]

theorem poolAndLater_timer_fails (env : Env) (s : Machine)
    (hp : env.ExAllocatePoolWithTag env.IPV6_TO_BLE_NDIS_TAG ≠ 0)
    (hg : env.NdisAllocateGenericObject env.IPV6_TO_BLE_NDIS_TAG ≠ 0)
    (hl : env.NdisAllocateNetBufferListPool
      (env.NdisAllocateGenericObject env.IPV6_TO_BLE_NDIS_TAG)
      ⟨true, 0, env.IPV6_TO_BLE_NDIS_TAG⟩ ≠ 0)
    (hb : env.NdisAllocateNetBufferPool
      (env.NdisAllocateGenericObject env.IPV6_TO_BLE_NDIS_TAG)
      ⟨env.IPV6_TO_BLE_NDIS_TAG, 0⟩ ≠ 0)
    (hq : NT_SUCCESS env.IPv6ToBleQueuesInitialize = true)
    (hbr : env.BORDER_ROUTER = true)
    (ht : NT_SUCCESS env.WdfTimerCreate = false) :
    StopsWith s (IPv6ToBleControlDeviceCreate.poolAndLater env s)
      env.WdfTimerCreate (.WdfTimerCreate env.WdfTimerCreate) := by
  obtain ⟨h1, _, _⟩ := create_all_ok env s.ctx.ndisPoolData env.IPV6_TO_BLE_NDIS_TAG s
    hp hg hl hb
  obtain ⟨l, h2, hrel⟩ := create_all_ok_releases_nothing env s.ctx.ndisPoolData
    env.IPV6_TO_BLE_NDIS_TAG s hp hg hl hb
  unfold StopsWith IPv6ToBleControlDeviceCreate.poolAndLater
  simp only [h1, hq, hbr, ht]
  refine ⟨by simp [NT_SUCCESS, STATUS_SUCCESS],
    l ++ [.IPv6ToBleQueuesInitialize env.IPv6ToBleQueuesInitialize], ?_, ?_⟩
  · simp [NT_SUCCESS, STATUS_SUCCESS, h2]
  · simp [hrel, Event.isRelease]

theorem poolAndLater_mem_when_pool_created (env : Env) (s : Machine)
    (hp : env.ExAllocatePoolWithTag env.IPV6_TO_BLE_NDIS_TAG ≠ 0)
    (hg : env.NdisAllocateGenericObject env.IPV6_TO_BLE_NDIS_TAG ≠ 0)
    (hl : env.NdisAllocateNetBufferListPool
      (env.NdisAllocateGenericObject env.IPV6_TO_BLE_NDIS_TAG)
      ⟨true, 0, env.IPV6_TO_BLE_NDIS_TAG⟩ ≠ 0)
    (hb : env.NdisAllocateNetBufferPool
      (env.NdisAllocateGenericObject env.IPV6_TO_BLE_NDIS_TAG)
      ⟨env.IPV6_TO_BLE_NDIS_TAG, 0⟩ ≠ 0) :
    (IPv6ToBleControlDeviceCreate.poolAndLater env s).2.mem
        (env.ExAllocatePoolWithTag env.IPV6_TO_BLE_NDIS_TAG)
      = ⟨genAnswer env env.IPV6_TO_BLE_NDIS_TAG, nblAnswer env env.IPV6_TO_BLE_NDIS_TAG,
         nbAnswer env env.IPV6_TO_BLE_NDIS_TAG,
         (s.mem (env.ExAllocatePoolWithTag env.IPV6_TO_BLE_NDIS_TAG)).rest⟩ := by
  obtain ⟨h1, _, h3⟩ := create_all_ok env s.ctx.ndisPoolData env.IPV6_TO_BLE_NDIS_TAG s
    hp hg hl hb
  unfold IPv6ToBleControlDeviceCreate.poolAndLater genAnswer nblAnswer nbAnswer
  simp only [h1]
  simp only [NT_SUCCESS, STATUS_SUCCESS, le_refl, decide_True, Bool.not_true,
    Bool.false_and, Bool.false_eq_true, if_false]
  split_ifs <;> simp [h3]

theorem stopsWith_of_prefix (s s' : Machine) (r : NTSTATUS × Machine)
    (status : NTSTATUS) (e : Event)
    (hpre : s.trace <+: s'.trace)
    (hrel : (eventsSince s s').any Event.isRelease = false)
    (h : StopsWith s' r status e) : StopsWith s r status e := by
  obtain ⟨pre, hp⟩ := hpre
  obtain ⟨h1, l, hl, hr⟩ := h
  rw [eventsSince_of_trace s s' pre hp.symm] at hrel
  refine ⟨h1, pre ++ l, ?_, ?_⟩
  · rw [hl, ← hp]
    simp
  · rw [List.any_append, hrel, hr]
    rfl

theorem stopsWith_emit (s s' : Machine) (status : NTSTATUS) (e : Event)
    (hpre : s.trace <+: s'.trace)
    (hrel : (eventsSince s s').any Event.isRelease = false) :
    StopsWith s (status, emit e s') status e := by
  obtain ⟨pre, hp⟩ := hpre
  rw [eventsSince_of_trace s s' pre hp.symm] at hrel
  exact ⟨rfl, pre, by simp [← hp], hrel⟩

theorem controlDeviceCreate_stops_at_failing_step (env : Env) (s : Machine)
    (step : StartStep) (h : failsAt env step = true) :
    StopsWith s (IPv6ToBleControlDeviceCreate env s) (stepStatus env step)
      (stepEvent env step) := by
  cases step
  · simp only [failsAt, deviceCreated, Bool.and_eq_true, decide_eq_true_eq,
      Bool.not_eq_true'] at h
    obtain ⟨⟨⟨⟨h1, h2⟩, h3⟩, h4⟩, h5⟩ := h
    simp only [IPv6ToBleControlDeviceCreate, h1, h2, h3, h4, h5, if_false, Bool.not_true,
      Bool.false_eq_true, Bool.not_false, if_true, stepStatus, stepEvent]
    apply stopsWith_emit <;> simp [eventsSince, Event.isRelease]
  · simp only [failsAt, deviceCreated, Bool.and_eq_true, decide_eq_true_eq,
      Bool.not_eq_true'] at h
    obtain ⟨⟨⟨⟨⟨⟨h1, h2⟩, h3⟩, h4⟩, h5⟩, h6⟩, h7⟩ := h
    simp only [IPv6ToBleControlDeviceCreate, IPv6ToBleControlDeviceCreate.borderRouterLocks,
      h1, h2, h3, h4, h5, h6, h7, if_false, Bool.not_true, Bool.false_eq_true,
      Bool.not_false, if_true, stepStatus, stepEvent]
    apply stopsWith_emit <;> simp [eventsSince, Event.isRelease]
  · simp only [failsAt, deviceCreated, Bool.and_eq_true, decide_eq_true_eq,
      Bool.not_eq_true'] at h
    obtain ⟨⟨⟨⟨⟨⟨⟨h1, h2⟩, h3⟩, h4⟩, h5⟩, h6⟩, h7⟩, h8⟩ := h
    simp only [IPv6ToBleControlDeviceCreate, IPv6ToBleControlDeviceCreate.borderRouterLocks,
      h1, h2, h3, h4, h5, h6, h7, h8, if_false, Bool.not_true, Bool.false_eq_true,
      Bool.not_false, if_true, stepStatus, stepEvent]
    apply stopsWith_emit <;> simp [eventsSince, Event.isRelease]
  · simp only [failsAt, deviceCreated, locksCreated, poolCreated, genAnswer, nblAnswer,
      nbAnswer, Bool.and_eq_true, decide_eq_true_eq, Bool.not_eq_true', Bool.or_eq_true]
      at h
    obtain ⟨⟨⟨⟨⟨⟨h1, h2⟩, h3⟩, h4⟩, h5, h6⟩, ⟨⟨hp, hg⟩, hl⟩, hb⟩, hq⟩ := h
    cases hbr : env.BORDER_ROUTER
    · simp only [IPv6ToBleControlDeviceCreate,
        IPv6ToBleControlDeviceCreate.borderRouterLocks, h1, h2, h3, h4, h5, hbr, if_false,
        Bool.not_true, Bool.false_eq_true, Bool.not_false, if_true, stepStatus, stepEvent]
      refine stopsWith_of_prefix _ _ _ _ _ ?_ ?_
        (poolAndLater_queue_fails env _ hp hg hl hb hq)
      · simp
      · simp [eventsSince, Event.isRelease]
    · simp only [hbr, Bool.true_eq_false, false_or] at h6
      obtain ⟨h6, h7⟩ := h6
      simp only [IPv6ToBleControlDeviceCreate,
        IPv6ToBleControlDeviceCreate.borderRouterLocks, h1, h2, h3, h4, h5, h6, h7, hbr,
        if_false, Bool.not_true, Bool.false_eq_true, Bool.not_false, if_true, stepStatus,
        stepEvent]
      refine stopsWith_of_prefix _ _ _ _ _ ?_ ?_
        (poolAndLater_queue_fails env _ hp hg hl hb hq)
      · simp
      · simp [eventsSince, Event.isRelease]
  · simp only [failsAt, deviceCreated, locksCreated, poolCreated, genAnswer, nblAnswer,
      nbAnswer, Bool.and_eq_true, decide_eq_true_eq, Bool.not_eq_true', Bool.or_eq_true]
      at h
    obtain ⟨⟨⟨⟨⟨⟨⟨⟨h1, h2⟩, h3⟩, h4⟩, h5, h6⟩, ⟨⟨hp, hg⟩, hl⟩, hb⟩, hq⟩, hbr⟩, ht⟩ := h
    simp only [hbr, Bool.true_eq_false, false_or] at h6
    obtain ⟨h6, h7⟩ := h6
    simp only [IPv6ToBleControlDeviceCreate,
      IPv6ToBleControlDeviceCreate.borderRouterLocks, h1, h2, h3, h4, h5, h6, h7, hbr,
      if_false, Bool.not_true, Bool.false_eq_true, Bool.not_false, if_true, stepStatus,
      stepEvent]
    refine stopsWith_of_prefix _ _ _ _ _ ?_ ?_
      (poolAndLater_timer_fails env _ hp hg hl hb hq hbr ht)
    · simp
    · simp [eventsSince, Event.isRelease]

theorem controlDeviceCreate_pool_intact (env : Env) (s : Machine) (step : StartStep)
    (h : failsAt env step = true)
    (hs : step = .queueInitialization ∨ step = .timerCreation) :
    (IPv6ToBleControlDeviceCreate env s).2.mem
        (env.ExAllocatePoolWithTag env.IPV6_TO_BLE_NDIS_TAG)
      = ⟨genAnswer env env.IPV6_TO_BLE_NDIS_TAG, nblAnswer env env.IPV6_TO_BLE_NDIS_TAG,
         nbAnswer env env.IPV6_TO_BLE_NDIS_TAG,
         (s.mem (env.ExAllocatePoolWithTag env.IPV6_TO_BLE_NDIS_TAG)).rest⟩ := by
  have key : deviceCreated env = true ∧ locksCreated env = true ∧ poolCreated env = true := by
    rcases hs with rfl | rfl <;>
    · simp only [failsAt, Bool.and_eq_true] at h
      tauto
  obtain ⟨hd, hk, hc⟩ := key
  simp only [deviceCreated, locksCreated, poolCreated, genAnswer, nblAnswer, nbAnswer,
    Bool.and_eq_true, decide_eq_true_eq, Bool.not_eq_true', Bool.or_eq_true] at hd hk hc
  obtain ⟨⟨⟨h1, h2⟩, h3⟩, h4⟩ := hd
  obtain ⟨h5, h6⟩ := hk
  obtain ⟨⟨⟨hp, hg⟩, hl⟩, hb⟩ := hc
  cases hbr : env.BORDER_ROUTER
  · simp only [IPv6ToBleControlDeviceCreate,
      IPv6ToBleControlDeviceCreate.borderRouterLocks, h1, h2, h3, h4, h5, hbr, if_false,
      Bool.not_true, Bool.false_eq_true, Bool.not_false, if_true]
    rw [poolAndLater_mem_when_pool_created env _ hp hg hl hb]
    simp
  · simp only [hbr, Bool.true_eq_false, false_or] at h6
    obtain ⟨h6, h7⟩ := h6
    simp only [IPv6ToBleControlDeviceCreate,
      IPv6ToBleControlDeviceCreate.borderRouterLocks, h1, h2, h3, h4, h5, h6, h7, hbr,
      if_false, Bool.not_true, Bool.false_eq_true, Bool.not_false, if_true]
    rw [poolAndLater_mem_when_pool_created env _ hp hg hl hb]
    simp

theorem stepEvent_not_release (env : Env) (step : StartStep) :
    (stepEvent env step).isRelease = false := by
  cases step <;> rfl

theorem failsAt_status_is_error (env : Env) (step : StartStep)
    (h : failsAt env step = true) : NT_SUCCESS (stepStatus env step) = false := by
  cases step <;>
  · simp only [failsAt, Bool.and_eq_true, Bool.not_eq_true'] at h
    exact h.2

/-- C12, as stated, fails: when queue initialization fails after pool creation
succeeded, `IPv6ToBleControlDeviceCreate` returns the error with the pool still
populated at address `100` and without a single release; the same holds when
timer creation fails. -/
theorem start_failure_leaves_pool_undestroyed :
    failsAt queueFailEnv StartStep.queueInitialization = true ∧
    (IPv6ToBleControlDeviceCreate queueFailEnv bootMachine).1
      = STATUS_INSUFFICIENT_RESOURCES ∧
    (IPv6ToBleControlDeviceCreate queueFailEnv bootMachine).2.trace
      = [Event.WdfControlDeviceInitAllocate 1,
         Event.WdfDeviceInitSetDeviceType,
         Event.WdfDeviceInitSetCharacteristics,
         Event.WdfDeviceInitAssignName STATUS_SUCCESS,
         Event.WdfDeviceCreate STATUS_SUCCESS,
         Event.WdfControlFinishInitializing,
         Event.WdfDeviceCreateSymbolicLink STATUS_SUCCESS,
         Event.WdfSpinLockCreate Lock.listenRequestQueueLock STATUS_SUCCESS,
         Event.WdfSpinLockCreate Lock.whiteListModifiedLock STATUS_SUCCESS,
         Event.WdfSpinLockCreate Lock.meshListModifiedLock STATUS_SUCCESS,
         Event.InitializeListHead RuntimeList.whiteList,
         Event.InitializeListHead RuntimeList.meshList,
         Event.ExAllocatePoolWithTag 7 100,
         Event.NdisAllocateGenericObject 7 11,
         Event.NdisAllocateNetBufferListPool 11 ⟨true, 0, 7⟩ 12,
         Event.NdisAllocateNetBufferPool 11 ⟨7, 0⟩ 13,
         Event.IPv6ToBleQueuesInitialize STATUS_INSUFFICIENT_RESOURCES] ∧
    (IPv6ToBleControlDeviceCreate queueFailEnv bootMachine).2.trace.any Event.isRelease
      = false ∧
    (IPv6ToBleControlDeviceCreate queueFailEnv bootMachine).2.mem 100
      = ⟨11, 12, 13, []⟩ ∧
    failsAt timerFailEnv StartStep.timerCreation = true ∧
    (IPv6ToBleControlDeviceCreate timerFailEnv bootMachine).1
      = STATUS_INSUFFICIENT_RESOURCES ∧
    (IPv6ToBleControlDeviceCreate timerFailEnv bootMachine).2.trace.any Event.isRelease
      = false ∧
    (IPv6ToBleControlDeviceCreate timerFailEnv bootMachine).2.mem 100
      = ⟨11, 12, 13, []⟩ := by
  decide

/-- C12, amended: when lock creation, queue initialization or timer creation
fails, every earlier step having succeeded, `IPv6ToBleControlDeviceCreate`
returns that step's error status at once: the failing call is its last outside
call, so no later step runs, and the routine unwinds nothing, releasing no
pool handle and no aggregate memory. In particular, when queue initialization
or timer creation fails after pool creation succeeded, the pool is still
populated with its three handles when start returns. -/
theorem start_failure_returns_at_once_without_unwinding (env : Env) (s : Machine)
    (step : StartStep) (h : failsAt env step = true) :
    (IPv6ToBleControlDeviceCreate env s).1 = stepStatus env step ∧
    NT_SUCCESS (IPv6ToBleControlDeviceCreate env s).1 = false ∧
    (eventsSince s (IPv6ToBleControlDeviceCreate env s).2).getLast?
      = some (stepEvent env step) ∧
    (eventsSince s (IPv6ToBleControlDeviceCreate env s).2).any Event.isRelease = false ∧
    (step = StartStep.queueInitialization ∨ step = StartStep.timerCreation →
      (IPv6ToBleControlDeviceCreate env s).2.mem
          (env.ExAllocatePoolWithTag env.IPV6_TO_BLE_NDIS_TAG)
        = ⟨genAnswer env env.IPV6_TO_BLE_NDIS_TAG,
           nblAnswer env env.IPV6_TO_BLE_NDIS_TAG,
           nbAnswer env env.IPV6_TO_BLE_NDIS_TAG,
           (s.mem (env.ExAllocatePoolWithTag env.IPV6_TO_BLE_NDIS_TAG)).rest⟩) := by
  obtain ⟨h1, l, hl, hr⟩ := controlDeviceCreate_stops_at_failing_step env s step h
  rw [eventsSince_of_trace _ _ _ hl]
  refine ⟨h1, ?_, ?_, ?_, controlDeviceCreate_pool_intact env s step h⟩
  · rw [h1]
    exact failsAt_status_is_error env step h
  · simp
  · rw [List.any_append, hr]
    simp [stepEvent_not_release]

/-- Witness of `start_failure_returns_at_once_without_unwinding`: queue
initialization fails on the booted machine. -/
theorem start_failure_returns_at_once_without_unwinding_witness :
    (IPv6ToBleControlDeviceCreate queueFailEnv bootMachine).1
      = stepStatus queueFailEnv StartStep.queueInitialization ∧
    NT_SUCCESS (IPv6ToBleControlDeviceCreate queueFailEnv bootMachine).1 = false ∧
    (eventsSince bootMachine
        (IPv6ToBleControlDeviceCreate queueFailEnv bootMachine).2).getLast?
      = some (stepEvent queueFailEnv StartStep.queueInitialization) ∧
    (eventsSince bootMachine
        (IPv6ToBleControlDeviceCreate queueFailEnv bootMachine).2).any Event.isRelease
      = false ∧
    (StartStep.queueInitialization = StartStep.queueInitialization
        ∨ StartStep.queueInitialization = StartStep.timerCreation →
      (IPv6ToBleControlDeviceCreate queueFailEnv bootMachine).2.mem
          (queueFailEnv.ExAllocatePoolWithTag queueFailEnv.IPV6_TO_BLE_NDIS_TAG)
        = ⟨genAnswer queueFailEnv queueFailEnv.IPV6_TO_BLE_NDIS_TAG,
           nblAnswer queueFailEnv queueFailEnv.IPV6_TO_BLE_NDIS_TAG,
           nbAnswer queueFailEnv queueFailEnv.IPV6_TO_BLE_NDIS_TAG,
           (bootMachine.mem
             (queueFailEnv.ExAllocatePoolWithTag queueFailEnv.IPV6_TO_BLE_NDIS_TAG)).rest⟩) :=
  start_failure_returns_at_once_without_unwinding queueFailEnv bootMachine
    StartStep.queueInitialization (by decide)

/-- C13: whatever the device state and whatever work-item allocation answers,
one run of `IPv6ToBleDeviceTimerCheckAndFlushLists` leaves `whiteListModified`
and `meshListModified` as they were, holds at most one of the two list locks
at every point of the run, and holds no lock when it returns. -/
theorem timer_keeps_flags_and_lock_discipline (env : Env) (s : Machine) :
    (IPv6ToBleDeviceTimerCheckAndFlushLists env s).ctx.whiteListModified
      = s.ctx.whiteListModified ∧
    (IPv6ToBleDeviceTimerCheckAndFlushLists env s).ctx.meshListModified
      = s.ctx.meshListModified ∧
    atMostOneListLockHeld
      (eventsSince s (IPv6ToBleDeviceTimerCheckAndFlushLists env s)) = true ∧
    heldAfter (eventsSince s (IPv6ToBleDeviceTimerCheckAndFlushLists env s)) = [] := by
  refine ⟨by simp, by simp, ?_, ?_⟩
  · cases hw : s.ctx.whiteListModified <;> cases hm : s.ctx.meshListModified <;>
    by_cases h0 : env.IoAllocateWorkItem s.workItemCalls = 0 <;>
    by_cases h1 : env.IoAllocateWorkItem (s.workItemCalls + 1) = 0 <;>
    simp [IPv6ToBleDeviceTimerCheckAndFlushLists, eventsSince, atMostOneListLockHeld,
      heldAfter, lockStep, Lock.isListLock, hw, hm, h0, h1, emit]
  · cases hw : s.ctx.whiteListModified <;> cases hm : s.ctx.meshListModified <;>
    by_cases h0 : env.IoAllocateWorkItem s.workItemCalls = 0 <;>
    by_cases h1 : env.IoAllocateWorkItem (s.workItemCalls + 1) = 0 <;>
    simp [IPv6ToBleDeviceTimerCheckAndFlushLists, eventsSince, heldAfter, lockStep,
      hw, hm, h0, h1, emit]

end IPv6ToBle
